import Mathlib

/-!
Shallow embedding of the "AI Help Doc Scoring" tool (zoho-ai-help-doc-scoring),
covering the scoring/aggregation core: the metrics calculator (src/js/parser.js),
the rule evaluators (src/js/rules/content-structure.js, the terminology and
text-over-visuals modules), the semantic-adapter transform (src/js/claude-client.js)
and the aggregation engine (src/js/scorer.js).

Modelling conventions:
- JS numbers are modelled as rationals (`ℚ`); `Math.round x` is `⌊x + 1/2⌋`
  (exact for every finite JS number that appears here), `Math.max`/`Math.min`
  are `max`/`min`.  Criterion, category and composite scores use `JSNum`
  (a rational or NaN), because the link-integrity rule reads the absent
  `links.brokenCount` field and computes `undefined / total = NaN`, which
  then propagates through the arithmetic; NaN absorbs through `+ - * /`,
  passes through `Math.round`/`Math.max`/`Math.min`, and compares false.
- `x || d` on numeric config reads (JS falsiness of 0) is `jsOr`.
- JS objects used as ordered string-keyed maps are association lists
  (`List (String × _)`): key update keeps position, new keys append,
  `Object.values`/`Object.entries` is the list itself in insertion order.
- `Array.prototype.sort` (stable per ES2019) is the stable insertion sort
  `sortBySev` / `sortLe` below.
- The page text `content.text.fullText` is modelled at word granularity: the
  field holds the list of lowercased word tokens of the text (the result of
  lower-casing and splitting on non-word characters).  Word-boundary regex
  counting of a term is then counting occurrences of the token (or of the
  token sequence, for multi-word phrases), and `String.prototype.includes`
  of a keyword phrase is token-sequence containment.
- List items keep their raw text (`String`), since the procedural-item regexes
  are anchored prefix tests on the raw item text.
- The wall clock (`new Date().toISOString()`) is threaded in as an explicit
  `now : String` argument; the remote Claude call and the cache read are
  threaded in as explicit `Except`/`Option` arguments, since they are external
  collaborators of the core.
-/

namespace DocScore

/-- `Math.round` of JS on a rational: round half toward positive infinity. -/
def jround (q : ℚ) : ℚ := ((⌊q + 1/2⌋ : ℤ) : ℚ)

/-- `Math.round(x * 10) / 10`: round to one decimal as done throughout scorer.js. -/
def round1 (q : ℚ) : ℚ := jround (q * 10) / 10

/-- `Math.round(x * 100) / 100`: round to two decimals as done in parser.js. -/
def round2 (q : ℚ) : ℚ := jround (q * 100) / 100

/-- JS `v || d` for an optionally-present numeric config value: `undefined`
and `0` both fall back to the default (0 is falsy in JS). -/
def jsOr (v : Option ℚ) (d : ℚ) : ℚ :=
  match v with
  | some x => if x = 0 then d else x
  | none => d

/-- JS `v || d` for an optionally-present string: `undefined` and the empty
string both fall back to the default. -/
def jsOrS (v : Option String) (d : String) : String :=
  match v with
  | some s => if s = "" then d else s
  | none => d

/-! ## JS numbers with NaN -/

/-- A JS number of this program: a rational value or NaN.  NaN arises here
from arithmetic on an absent (`undefined`) record field;
`typeof NaN === 'number'`, so NaN passes every `typeof`-number filter. -/
inductive JSNum where
  | num (q : ℚ)
  | nan
deriving DecidableEq, Repr

/-- JS `+` on numbers (NaN absorbs). -/
def addJ : JSNum → JSNum → JSNum
  | .num a, .num b => .num (a + b)
  | _, _ => .nan

/-- JS `-` on numbers (NaN absorbs). -/
def subJ : JSNum → JSNum → JSNum
  | .num a, .num b => .num (a - b)
  | _, _ => .nan

/-- JS `*` on numbers (NaN absorbs). -/
def mulJ : JSNum → JSNum → JSNum
  | .num a, .num b => .num (a * b)
  | _, _ => .nan

/-- JS `/` on numbers (NaN absorbs; every division in the embedded code has
a guarded nonzero divisor, so `q / 0` never arises). -/
def divJ : JSNum → JSNum → JSNum
  | .num a, .num b => .num (a / b)
  | _, _ => .nan

/-- `Math.round` (NaN passes through). -/
def jroundJ : JSNum → JSNum
  | .num q => .num (jround q)
  | .nan => .nan

/-- `Math.round(x * 10) / 10` (NaN passes through). -/
def round1J : JSNum → JSNum
  | .num q => .num (round1 q)
  | .nan => .nan

/-- `Math.max(a, b)` (NaN absorbs). -/
def maxJ : JSNum → JSNum → JSNum
  | .num a, .num b => .num (max a b)
  | _, _ => .nan

/-- `Math.min(a, b)` (NaN absorbs). -/
def minJ : JSNum → JSNum → JSNum
  | .num a, .num b => .num (min a b)
  | _, _ => .nan

/-- `xs.reduce((a, b) => a + b, 0)` over JS numbers. -/
def jsum (l : List JSNum) : JSNum := l.foldl addJ (.num 0)

/-- JS `x >= q` (false when `x` is NaN). -/
def geQJ (x : JSNum) (q : ℚ) : Bool :=
  match x with
  | .num v => decide (q ≤ v)
  | .nan => false

/-- JS `x > q` (false when `x` is NaN). -/
def gtQJ (x : JSNum) (q : ℚ) : Bool :=
  match x with
  | .num v => decide (q < v)
  | .nan => false

/-- JS `x < q` (false when `x` is NaN). -/
def ltQJ (x : JSNum) (q : ℚ) : Bool :=
  match x with
  | .num v => decide (v < q)
  | .nan => false

/-- The rational part of a JS number, 0 for NaN.  Used in lemmas about the
NaN-free fragment, and in the one sort-comparator position where the JS
engine applies `ToInteger` to the comparator result (`ToInteger(NaN)` is 0,
i.e. a NaN difference counts as "equal"). -/
def valJ : JSNum → ℚ
  | .num q => q
  | .nan => 0

/-- JS string interpolation of a number: NaN prints "NaN"; rationals render
via `toString`, standing in for JS number formatting. -/
instance : ToString JSNum :=
  ⟨fun s => match s with
    | .num q => toString q
    | .nan => "NaN"⟩

/-- `toFixed(0)` on a nonnegative number: round half away from zero and
render the integer; NaN renders "NaN". -/
def toFixed0 : JSNum → String
  | .num q => toString ⌊q + 1/2⌋
  | .nan => "NaN"

/-! ## Issue and result records (§3 of the spec's data model) -/

/-- An issue record as produced by every evaluator. -/
structure Issue where
  severity : String
  message : String
  fix : String := ""
  location : Option String := none
  excerpt : Option String := none
  details : Option String := none
deriving DecidableEq, Repr

/-- A per-criterion result record. -/
structure CriterionResult where
  criterionId : String
  score : JSNum
  issues : List Issue
  details : String
deriving DecidableEq, Repr

/-- Severity rank used by `collectAllIssues` in scorer.js:
`{ critical: 0, warning: 1, info: 2 }` with `?? 3` for anything else. -/
def sevRank (s : String) : ℕ :=
  if s = "critical" then 0 else if s = "warning" then 1 else if s = "info" then 2 else 3

/-- Stable insertion of `x` into a list already sorted by `rank`:
`x` goes in front of the first element of equal or larger rank.  Mirrors the
stable `Array.prototype.sort` with comparator `rank a - rank b`. -/
def insByRank (rank : α → ℕ) (x : α) : List α → List α
  | [] => [x]
  | y :: ys => if rank x ≤ rank y then x :: y :: ys else y :: insByRank rank x ys

/-- Stable sort by an integer rank (ES2019 `Array.prototype.sort` is stable). -/
def sortByRank (rank : α → ℕ) : List α → List α
  | [] => []
  | x :: xs => insByRank rank x (sortByRank rank xs)

/-- Sort an issue list by severity, the way every evaluator module and the
scorer do (`severityOrder[a.severity] - severityOrder[b.severity]`). -/
def sortBySev (l : List Issue) : List Issue :=
  sortByRank (fun i => sevRank i.severity) l

/-- Stable insertion by a boolean `le` relation (for the two remaining JS
sorts: variant counts descending, category scores ascending). -/
def insLe (le : α → α → Bool) (x : α) : List α → List α
  | [] => [x]
  | y :: ys => if le x y then x :: y :: ys else y :: insLe le x ys

/-- Stable sort by a boolean `le` relation. -/
def sortLe (le : α → α → Bool) : List α → List α
  | [] => []
  | x :: xs => insLe le x (sortLe le xs)

/-! ## Normalized content (the input contract) -/

/-- One extracted paragraph. -/
structure Paragraph where
  text : String
  wordCount : ℕ
  index : ℕ
deriving DecidableEq, Repr

/-- One extracted heading; the extractor supplies the tag name (`"h1"`…`"h6"`)
and parser.js parses its numeric level, which we carry directly. -/
structure Heading where
  level : ℕ
  text : String
deriving DecidableEq, Repr

/-- One extracted list (`ul`/`ol`). -/
structure DocList where
  type : String
  items : List String
  itemCount : ℕ
deriving DecidableEq, Repr

/-- One extracted image. -/
structure Image where
  src : String
  hasAlt : Bool
  index : ℕ
deriving DecidableEq, Repr

/-- One extracted link (`type` is `"internal"` or `"external"`). -/
structure Link where
  type : String
deriving DecidableEq, Repr

/-- The `structure` part of NormalizedContent.  Tables, code blocks and
callouts enter the metrics only through their counts. -/
structure ContentStructure where
  headings : List Heading
  paragraphs : List Paragraph
  lists : List DocList
  images : List Image
  tables : ℕ
  codeBlocks : ℕ
  callouts : ℕ
  links : List Link
deriving DecidableEq, Repr

/-- The `text` part of NormalizedContent: `fullText` is modelled as the list
of lowercased word tokens of the page text (see the module docstring). -/
structure ContentText where
  fullText : List String
  wordCount : ℕ
deriving DecidableEq, Repr

/-- The `meta` part of NormalizedContent. -/
structure ContentMeta where
  url : String
  title : String
deriving DecidableEq, Repr

/-- One section of the optional section breakdown consumed by
`addSectionScores` in scorer.js. -/
structure Section where
  title : String
  level : ℕ
  paragraphs : List Paragraph
  lists : List DocList
  images : List Image
  tables : ℕ
  codeBlocks : ℕ
  wordCount : ℕ
deriving DecidableEq, Repr

/-- NormalizedContent: one immutable page snapshot. -/
structure Content where
  meta : ContentMeta
  structure' : ContentStructure
  text : ContentText
  sections : List Section := []
deriving DecidableEq, Repr

/-! ## Metrics (parser.js `computeMetrics`) -/

/-- Entry of `paragraphs.longParagraphs`. -/
structure LongParagraph where
  text : String
  wordCount : ℕ
  index : ℕ
deriving DecidableEq, Repr

/-- Sample entry of `paragraphs.sentences.longSamples`. -/
structure LongSample where
  paragraphIndex : ℕ
  wordCount : ℕ
  text : String
deriving DecidableEq, Repr

/-- The `paragraphs.sentences` sub-record.  parser.js `computeMetrics` does not
produce it (the field is absent, i.e. `none`); `buildSectionMetrics` in
scorer.js produces it with all counters zero. -/
structure SentenceMetrics where
  total : ℕ
  avgLength : ℚ
  longCount : ℕ
  complexCount : ℕ
  longSamples : List LongSample
deriving DecidableEq, Repr

/-- `metrics.paragraphs`. -/
structure ParagraphMetrics where
  count : ℕ
  avgLength : ℚ
  maxLength : ℕ
  longCount : ℕ
  longParagraphs : List LongParagraph
  sentences : Option SentenceMetrics := none
deriving DecidableEq, Repr

/-- One issue of the heading-hierarchy validation. -/
structure HeadingIssue where
  type : String
  message : String
  index : ℕ
deriving DecidableEq, Repr

/-- Result of `validateHeadingHierarchy`. -/
structure HierarchyResult where
  valid : Bool
  issues : List HeadingIssue
deriving DecidableEq, Repr

/-- `metrics.headings`. -/
structure HeadingMetrics where
  count : ℕ
  hasH1 : Bool
  hasH2 : Bool
  h1Count : ℕ
  h2Count : ℕ
  firstLevel : Option ℕ
  hierarchyValid : HierarchyResult
  levels : List ℕ
  distribution : List (String × ℕ)
deriving DecidableEq, Repr

/-- `metrics.lists`.  `listToParagraphR` is the source's
`listToParagraphRatio` field. -/
structure ListMetrics where
  count : ℕ
  totalItems : ℕ
  listToParagraphR : ℚ
  orderedCount : ℕ
  proceduralCount : ℕ
  descriptiveCount : ℕ
deriving DecidableEq, Repr

/-- Entry of `images.missingAlt`. -/
structure MissingAlt where
  src : String
  index : ℕ
deriving DecidableEq, Repr

/-- `metrics.images`.  `imageToTextR` is the source's `imageToTextRatio`. -/
structure ImageMetrics where
  count : ℕ
  withAlt : ℕ
  withoutAlt : ℕ
  altTextCoverage : ℚ
  imageToTextR : ℚ
  missingAlt : List MissingAlt
deriving DecidableEq, Repr

/-- `metrics.content`.  `visualToContentR` is the source's
`visualToContentRatio`. -/
structure ContentBlockMetrics where
  totalBlocks : ℕ
  visualBlocks : ℕ
  visualToContentR : ℚ
  wordCount : ℕ
  codeBlocks : ℕ
  tables : ℕ
  callouts : ℕ := 0
deriving DecidableEq, Repr

/-- Entry of `links.brokenLinks`. -/
structure BrokenLink where
  href : String
  reason : String
deriving DecidableEq, Repr

/-- `metrics.links`.  src/js/parser.js computes only `total`/`internal`/
`external` — `brokenCount` and `brokenLinks` stay absent (JS `undefined`,
modelled `none` / empty).  The companion parser variant (src/unnamed/
part_007) computes both from the extractor's `isBroken` flags; a metrics
record with `brokenCount` set comes from that parser, which also sets
`brokenLinks` (read only when the count is positive). -/
structure LinkMetrics where
  total : ℕ
  internal : ℕ
  external : ℕ
  brokenCount : Option ℕ := none
  brokenLinks : List BrokenLink := []
deriving DecidableEq, Repr

/-- The full Metrics record. -/
structure Metrics where
  paragraphs : ParagraphMetrics
  headings : HeadingMetrics
  lists : ListMetrics
  images : ImageMetrics
  content : ContentBlockMetrics
  links : LinkMetrics
deriving DecidableEq, Repr

/-! ## parser.js -/

namespace Parser

/-- parser.js `validateHeadingHierarchy` inner loop: `prev` is the previous
level (0 before the first heading), `idx` the current position. -/
def hierGo (prev : ℕ) (idx : ℕ) : List ℕ → List HeadingIssue
  | [] => []
  | c :: rest =>
    (if prev + 1 < c ∧ prev ≠ 0 then
      [{ type := "skipped"
         message := "Heading level skipped from h" ++ toString prev ++ " to h" ++ toString c
         index := idx }]
    else []) ++ hierGo c (idx + 1) rest

/-- parser.js `validateHeadingHierarchy`: scan heading levels in document
order, flagging forward jumps of more than one level. -/
def validateHeadingHierarchy (levels : List ℕ) : HierarchyResult :=
  let issues := hierGo 0 0 levels
  { valid := issues.length = 0, issues := issues }

/-- Association-list increment used for the heading-level distribution
(JS object: first occurrence fixes the position of a key). -/
def assocIncr (key : String) : List (String × ℕ) → List (String × ℕ)
  | [] => [(key, 1)]
  | (k, v) :: rest => if k = key then (k, v + 1) :: rest else (k, v) :: assocIncr key rest

/-- parser.js `getHeadingDistribution`. -/
def getHeadingDistribution (levels : List ℕ) : List (String × ℕ) :=
  levels.foldl (fun dist level => assocIncr ("h" ++ toString level) dist) []

/-- Regex `\w`: a word character. -/
def isWordChar (c : Char) : Bool := c.isAlphanum || c = '_'

/-- The action-verb alternatives of parser.js's `proceduralVerbPattern`. -/
def PROC_VERBS : List String :=
  ["click", "select", "choose", "open", "go to", "enter", "type", "add", "remove",
   "delete", "enable", "disable", "run", "install", "configure", "create", "update",
   "save", "set", "navigate", "verify", "copy", "paste", "upload", "download", "edit",
   "apply", "start", "stop", "restart", "connect", "sign in", "log in", "sign out",
   "logout"]

/-- `^verb\b` on a lowercased char sequence: the verb is a prefix and the next
character (if any) is not a word character. -/
def verbStart (v : List Char) (cs : List Char) : Bool :=
  v.isPrefixOf cs &&
    (match cs.drop v.length with
     | [] => true
     | c :: _ => !isWordChar c)

/-- `^step\s+\d+` on a lowercased char sequence. -/
def stepNumStart (cs : List Char) : Bool :=
  ("step".data).isPrefixOf cs &&
    (let rest := cs.drop 4
     match rest with
     | [] => false
     | c :: _ =>
       c.isWhitespace &&
         (match rest.dropWhile Char.isWhitespace with
          | [] => false
          | d :: _ => d.isDigit))

/-- parser.js `isProceduralItem`: the trimmed item text starts with an action
verb at a word boundary, or with `step <number>` (both case-insensitive). -/
def isProceduralItem (text : String) : Bool :=
  let cs := text.trim.toLower.data
  PROC_VERBS.any (fun v => verbStart v.data cs) || stepNumStart cs

/-- parser.js `computeMetrics` (src/js/parser.js lines 61-182). -/
def computeMetrics (content : Content) : Metrics :=
  let structure' := content.structure'
  let text := content.text
  let paragraphLengths : List ℕ := structure'.paragraphs.map (·.wordCount)
  let longParagraphs := structure'.paragraphs.filter (fun p => 150 < p.wordCount)
  let avgParagraphLength : ℚ :=
    if paragraphLengths.length ≠ 0 then
      ((paragraphLengths.sum : ℚ)) / (paragraphLengths.length : ℚ)
    else 0
  let headingLevels := structure'.headings.map (·.level)
  let h1Count := (headingLevels.filter (fun l => l = 1)).length
  let h2Count := (headingLevels.filter (fun l => l = 2)).length
  let totalListItems := (structure'.lists.map (·.itemCount)).sum
  let listAnalysis := structure'.lists.map (fun list =>
    let proceduralItems := (list.items.filter isProceduralItem).length
    let procedural : Bool := list.type == "ol" ||
      decide (max 1 (Int.toNat ⌈(list.items.length : ℚ) * (3/10)⌉) ≤ proceduralItems)
    (list.type, procedural))
  let orderedCount := (listAnalysis.filter (fun l => l.1 = "ol")).length
  let proceduralCount := (listAnalysis.filter (fun l => l.2)).length
  let listToParaR : ℚ :=
    if structure'.paragraphs.length ≠ 0 then
      (structure'.lists.length : ℚ) / (structure'.paragraphs.length : ℚ)
    else 0
  let imagesWithAlt := (structure'.images.filter (·.hasAlt)).length
  let altCov : ℚ :=
    if structure'.images.length ≠ 0 then
      (imagesWithAlt : ℚ) / (structure'.images.length : ℚ)
    else 1
  let imageToTextR : ℚ :=
    if text.wordCount ≠ 0 then
      (structure'.images.length : ℚ) / ((text.wordCount : ℚ) / 100)
    else 0
  let totalContentBlocks :=
    structure'.paragraphs.length + structure'.lists.length + structure'.tables +
      structure'.codeBlocks + structure'.callouts
  let visualBlocks := structure'.images.length + structure'.tables
  let visualToContentR : ℚ :=
    if totalContentBlocks ≠ 0 then
      (visualBlocks : ℚ) / (totalContentBlocks : ℚ)
    else 0
  let internalLinks := (structure'.links.filter (fun l => l.type = "internal")).length
  let externalLinks := (structure'.links.filter (fun l => l.type = "external")).length
  { paragraphs :=
      { count := structure'.paragraphs.length
        avgLength := jround avgParagraphLength
        maxLength := paragraphLengths.foldr max 0
        longCount := longParagraphs.length
        longParagraphs := longParagraphs.map (fun p =>
          { text := p.text.take 100 ++ "...", wordCount := p.wordCount, index := p.index })
        sentences := none }
    headings :=
      { count := structure'.headings.length
        hasH1 := 0 < h1Count
        hasH2 := 0 < h2Count
        h1Count := h1Count
        h2Count := h2Count
        firstLevel := headingLevels.head?
        hierarchyValid := validateHeadingHierarchy headingLevels
        levels := headingLevels
        distribution := getHeadingDistribution headingLevels }
    lists :=
      { count := structure'.lists.length
        totalItems := totalListItems
        listToParagraphR := round2 listToParaR
        orderedCount := orderedCount
        proceduralCount := proceduralCount
        descriptiveCount := listAnalysis.length - proceduralCount }
    images :=
      { count := structure'.images.length
        withAlt := imagesWithAlt
        withoutAlt := structure'.images.length - imagesWithAlt
        altTextCoverage := round2 altCov
        imageToTextR := round2 imageToTextR
        missingAlt := (structure'.images.filter (fun i => !i.hasAlt)).map (fun i =>
          { src := i.src, index := i.index }) }
    content :=
      { totalBlocks := totalContentBlocks
        visualBlocks := visualBlocks
        visualToContentR := round2 visualToContentR
        wordCount := text.wordCount
        codeBlocks := structure'.codeBlocks
        tables := structure'.tables
        callouts := structure'.callouts }
    links :=
      { total := structure'.links.length
        internal := internalLinks
        external := externalLinks } }

end Parser

/-! ## Configuration (`window.ScoringConfig`) -/

/-- Per-criterion configuration overrides.  `idealR` is the source's
`idealRatio` key. -/
structure CriterionConfig where
  weight : Option ℚ := none
  threshold : Option ℚ := none
  idealR : Option ℚ := none
deriving DecidableEq, Repr

/-- The slice of `window.ScoringConfig` the evaluators read. -/
structure Config where
  cs01 : CriterionConfig := {}
  cs02 : CriterionConfig := {}
  cs04 : CriterionConfig := {}
  cs07 : CriterionConfig := {}
  av01 : CriterionConfig := {}
  av02 : CriterionConfig := {}
  tb01 : CriterionConfig := {}
  tb02 : CriterionConfig := {}
  tb03 : CriterionConfig := {}
deriving DecidableEq, Repr

/-- All numeric overrides present in one criterion config are nonnegative. -/
def CriterionConfig.Nonneg (c : CriterionConfig) : Prop :=
  (∀ w ∈ c.weight, 0 ≤ w) ∧ (∀ t ∈ c.threshold, 0 ≤ t) ∧ (∀ r ∈ c.idealR, 0 ≤ r)

/-- All numeric overrides present in a config are nonnegative (any real
config satisfies this; weights and thresholds are magnitudes). -/
def Config.Nonneg (cfg : Config) : Prop :=
  cfg.cs01.Nonneg ∧ cfg.cs02.Nonneg ∧ cfg.cs04.Nonneg ∧ cfg.cs07.Nonneg ∧
    cfg.av01.Nonneg ∧ cfg.av02.Nonneg ∧ cfg.tb01.Nonneg ∧ cfg.tb02.Nonneg ∧
    cfg.tb03.Nonneg

/-! ## Content-structure rules (src/js/rules/content-structure.js) -/

/-- The combined per-category result shape returned by each rule module's
`scoreAll` (`{categoryScore, criteria, allIssues}`). -/
structure RuleResults where
  categoryId : String
  categoryName : String
  criteria : List (String × CriterionResult)
  categoryScore : JSNum
  allIssues : List Issue
deriving DecidableEq, Repr

namespace ContentStructureRules

/-- `scoreParagraphBrevity` (CS-01, content-structure.js lines 13-87). -/
def scoreParagraphBrevity (metrics : Metrics) (cfg : Config) : CriterionResult :=
  if metrics.paragraphs.count = 0 then
    { criterionId := "CS-01", score := .num 10, issues := []
      details := "No paragraphs found (content may be structured as lists/tables)" }
  else
    let paragraphs := metrics.paragraphs
    let threshold := jsOr cfg.cs01.threshold 150
    let percentageGood : ℚ :=
      ((paragraphs.count : ℚ) - (paragraphs.longCount : ℚ)) / (paragraphs.count : ℚ)
    let score0 := jround (percentageGood * 10)
    let longIssues := paragraphs.longParagraphs.map (fun p =>
      { severity := if 200 < p.wordCount then "critical" else "warning"
        message := "Paragraph " ++ toString (p.index + 1) ++ " has " ++
          toString p.wordCount ++ " words (threshold: " ++ toString threshold ++ ")"
        location := some ("Paragraph " ++ toString (p.index + 1))
        excerpt := some p.text
        fix := "Consider breaking this paragraph into bullet points or shorter sections" })
    let sentencePart :=
      match paragraphs.sentences with
      | none => ((0 : ℚ), ([] : List Issue))
      | some s =>
        if 0 < s.total then
          let longRatioPenalty : ℚ :=
            if (1/5 : ℚ) < (s.longCount : ℚ) / (s.total : ℚ) then 1 else 0
          let longRatioIssues : List Issue :=
            if (1/5 : ℚ) < (s.longCount : ℚ) / (s.total : ℚ) then
              [{ severity := "warning"
                 message := toString s.longCount ++ " long sentences detected"
                 fix := "Split long sentences into shorter, single-idea statements" }]
            else []
          let complexIssues : List Issue :=
            if 0 < s.complexCount then
              [{ severity := "info"
                 message := toString s.complexCount ++ " sentences have multiple clauses"
                 fix := "Reduce clause density for better readability" }]
            else []
          let sampleIssues : List Issue := s.longSamples.map (fun (sample : LongSample) =>
            { severity := "info"
              message := "Long sentence in paragraph " ++ toString (sample.paragraphIndex + 1) ++
                " (" ++ toString sample.wordCount ++ " words)"
              location := some ("Paragraph " ++ toString (sample.paragraphIndex + 1))
              excerpt := some sample.text
              fix := "Break this sentence into shorter sentences" })
          (longRatioPenalty, longRatioIssues ++ complexIssues ++ sampleIssues)
        else ((0 : ℚ), ([] : List Issue))
    let score1 := score0 - sentencePart.1
    let score2 := max 0 (min 10 score1)
    { criterionId := "CS-01"
      score := .num score2
      issues := longIssues ++ sentencePart.2
      details := toString paragraphs.longCount ++ " of " ++ toString paragraphs.count ++
        " paragraphs exceed " ++ toString threshold ++ " words." }

/-- `scoreListUsage` (CS-02, content-structure.js lines 95-162). -/
def scoreListUsage (metrics : Metrics) (cfg : Config) : CriterionResult :=
  if metrics.paragraphs.count = 0 ∧ metrics.lists.count = 0 then
    { criterionId := "CS-02", score := .num 5
      issues := [{ severity := "info", message := "No paragraphs or lists found" }]
      details := "Unable to assess list usage - no text content found" }
  else
    let lists := metrics.lists
    let paragraphs := metrics.paragraphs
    let idealR := jsOr cfg.cs02.idealR (3/10)
    let actualR := lists.listToParagraphR
    let score0 : ℚ :=
      if idealR ≤ actualR then min 10 (7 + (actualR - idealR) * 10)
      else jround ((actualR / idealR) * 7)
    let score1 := max 0 (min 10 (jround score0))
    let lowIssues : List Issue :=
      if actualR < 1/10 ∧ 3 < paragraphs.count then
        [{ severity := "warning"
           message := "Low list usage in procedural content"
           details := some ("List-to-paragraph ratio " ++ toString actualR ++
             " is below 0.1 (ideal: " ++ toString idealR ++ ")")
           fix := "Consider converting step-by-step instructions into numbered lists" }]
      else []
    let unorderedPenalty : ℚ :=
      if 0 < lists.proceduralCount ∧ lists.orderedCount = 0 then 1 else 0
    let unorderedIssues : List Issue :=
      if 0 < lists.proceduralCount ∧ lists.orderedCount = 0 then
        [{ severity := "warning"
           message := "Procedural lists are not ordered"
           fix := "Use numbered lists for step-by-step instructions" }]
      else []
    let descriptiveIssues : List Issue :=
      if 0 < lists.descriptiveCount ∧ lists.proceduralCount = 0 ∧ 0 < lists.count then
        [{ severity := "info"
           message := "Lists appear descriptive rather than procedural"
           fix := "Ensure procedural steps are captured in ordered lists" }]
      else []
    let score2 := max 0 (score1 - unorderedPenalty)
    { criterionId := "CS-02"
      score := .num score2
      issues := lowIssues ++ unorderedIssues ++ descriptiveIssues
      details := "List-to-paragraph ratio: " ++ toString actualR ++
        " (ideal: " ++ toString idealR ++ "). " ++ toString lists.count ++
        " lists with " ++ toString lists.totalItems ++ " total items." }

/-- `scoreHeadingHierarchy` (CS-04, content-structure.js lines 170-265). -/
def scoreHeadingHierarchy (metrics : Metrics) : CriterionResult :=
  if metrics.headings.count = 0 then
    { criterionId := "CS-04", score := .num 3
      issues := [{ severity := "critical", message := "No headings found"
                   fix := "Add descriptive headings to structure the content" }]
      details := "Page has no heading structure" }
  else
    let headings := metrics.headings
    let noH1 : Bool := !headings.hasH1
    let multiH1 : Bool := decide (1 < headings.h1Count)
    let deepFirst : Bool :=
      match headings.firstLevel with
      | some l => decide (l ≠ 0 ∧ 1 < l)
      | none => false
    let missingH2 : Bool := !headings.hasH2 && headings.levels.any (fun l => 3 ≤ l)
    let skipCount := headings.hierarchyValid.issues.length
    let skipPenalty : ℚ :=
      if !headings.hierarchyValid.valid then min 5 ((skipCount : ℚ) * 2) else 0
    let perBlock : ℚ := (headings.count : ℚ) / (max 1 metrics.content.totalBlocks : ℕ)
    let sparse : Bool := decide (perBlock < 1/20 ∧ 10 < metrics.content.totalBlocks)
    let score : ℚ := 10 -
      (if noH1 then 2 else 0) - (if multiH1 then 1 else 0) -
      (if deepFirst then 1 else 0) - (if missingH2 then 1 else 0) -
      skipPenalty - (if sparse then 1 else 0)
    let issues : List Issue :=
      (if noH1 then
        [{ severity := "warning", message := "Page lacks an H1 heading"
           details := some "Expected a single H1 to establish page context"
           fix := "Add a clear H1 heading that describes the page purpose" }] else []) ++
      (if multiH1 then
        [{ severity := "warning"
           message := "Multiple H1 headings found (" ++ toString headings.h1Count ++ ")"
           fix := "Use a single H1 for the page title and demote others to H2/H3" }] else []) ++
      (if deepFirst then
        [{ severity := "warning"
           message := "First heading starts at h" ++ toString (headings.firstLevel.getD 0)
           fix := "Start with an H1 heading to establish page context" }] else []) ++
      (if missingH2 then
        [{ severity := "warning", message := "Missing H2 headings before deeper sections"
           fix := "Add H2 headings to group sections before using H3/H4" }] else []) ++
      (if !headings.hierarchyValid.valid then
        headings.hierarchyValid.issues.map (fun issue =>
          { severity := "warning", message := issue.message
            location := some ("Heading " ++ toString (issue.index + 1))
            details := some "Detected a skipped heading level in the hierarchy"
            fix := "Maintain proper heading hierarchy without skipping levels" }) else []) ++
      (if sparse then
        [{ severity := "info", message := "Content could benefit from more section headings"
           fix := "Add subheadings to break up long sections" }] else [])
    { criterionId := "CS-04"
      score := .num (max 0 score)
      issues := issues
      details := toString headings.count ++ " headings found." }

/-- `scoreLinkIntegrity` (CS-07, content-structure.js lines 273-314).  When
`links.brokenCount` is absent (src/js/parser.js never sets it) and the page
has at least one link, the JS computes `undefined / total = NaN`, and NaN
then flows through `Math.round((1 - NaN) * 10)` and
`Math.max(0, Math.min(10, NaN))` into the criterion score; no issues are
pushed (`undefined > 0` is false) and `undefined` is rendered into the
details text. -/
def scoreLinkIntegrity (metrics : Metrics) : CriterionResult :=
  if metrics.links.total = 0 then
    { criterionId := "CS-07", score := .num 10, issues := [], details := "No links found" }
  else
    let links := metrics.links
    let brokenR : JSNum :=
      match links.brokenCount with
      | some bc => .num ((bc : ℚ) / (links.total : ℚ))
      | none => .nan
    let score := jroundJ (mulJ (subJ (.num 1) brokenR) (.num 10))
    let bcPos : Bool :=
      match links.brokenCount with
      | some bc => decide (0 < bc)
      | none => false
    let bcStr : String :=
      match links.brokenCount with
      | some bc => toString bc
      | none => "undefined"
    let issues : List Issue :=
      if bcPos then
        [{ severity := if gtQJ brokenR (1/5) then "warning" else "info"
           message := bcStr ++ " broken internal anchors detected"
           details := some ("Broken link ratio: " ++
             toFixed0 (mulJ brokenR (.num 100)) ++ "%")
           fix := "Update or remove broken anchors and ensure targets exist" }] ++
        (links.brokenLinks.take 5).map (fun link =>
          { severity := "info", message := "Broken anchor link"
            location := some link.href
            details := some (jsOrS (some link.reason) "Missing anchor target")
            fix := "Add the anchor target or update the link" })
      else []
    { criterionId := "CS-07"
      score := maxJ (.num 0) (minJ (.num 10) score)
      issues := issues
      details := bcStr ++ " broken anchors out of " ++
        toString links.total ++ " total links." }

/-- The `weights[id] || dflt` lookup of the three rule modules `scoreAll`
(the fallback is 0.33 in content-structure and text-over-visuals, 0.5 in
terminology). -/
def resolveWeight (weights : List (String × ℚ)) (dflt : ℚ) (id : String) : ℚ :=
  match weights.lookup id with
  | some w => if w = 0 then dflt else w
  | none => dflt

/-- Weighted category score over the criteria actually present, shared shape
of the three rule modules `scoreAll`.  The weighted sum is JS-number
arithmetic (a NaN criterion score poisons the category score); the total
weight is always a real number. -/
def weightedCategoryScore (weights : List (String × ℚ)) (dflt : ℚ)
    (criteria : List (String × CriterionResult)) : JSNum :=
  let acc := criteria.foldl (fun (acc : JSNum × ℚ) entry =>
    let w := resolveWeight weights dflt entry.1
    (addJ acc.1 (mulJ entry.2.score (.num w)), acc.2 + w)) (.num 0, 0)
  round1J (divJ acc.1 (.num acc.2))

/-- `ContentStructureRules.scoreAll` (content-structure.js lines 321-362). -/
def scoreAll (metrics : Metrics) (cfg : Config) : RuleResults :=
  let criteria : List (String × CriterionResult) :=
    [("CS-01", scoreParagraphBrevity metrics cfg),
     ("CS-02", scoreListUsage metrics cfg),
     ("CS-04", scoreHeadingHierarchy metrics),
     ("CS-07", scoreLinkIntegrity metrics)]
  let weights : List (String × ℚ) :=
    [("CS-01", jsOr cfg.cs01.weight (35/100)),
     ("CS-02", jsOr cfg.cs02.weight (30/100)),
     ("CS-04", jsOr cfg.cs04.weight (35/100)),
     ("CS-07", jsOr cfg.cs07.weight (10/100))]
  { categoryId := "CAT-01"
    categoryName := "Content Structure"
    criteria := criteria
    categoryScore := weightedCategoryScore weights (33/100) criteria
    allIssues := sortBySev (criteria.flatMap (fun c => c.2.issues)) }

end ContentStructureRules

/-! ## Shared token-text primitives -/

/-- Number of occurrences of a (possibly multi-word) phrase in the token
stream; word-boundary regex matching of a term over the page text counts
exactly the token-aligned occurrences. -/
def countPhrase (phrase : List String) : List String → ℕ
  | [] => 0
  | w :: rest =>
    (if phrase.isPrefixOf (w :: rest) then 1 else 0) + countPhrase phrase rest

/-- `String.prototype.includes` of a keyword phrase, at token granularity. -/
def textIncludes (text : List String) (phrase : List String) : Bool :=
  0 < countPhrase phrase text

/-- `terms.some(term => text.includes(term))`. -/
def hasAny (text : List String) (terms : List (List String)) : Bool :=
  terms.any (fun t => textIncludes text t)

/-- JS object key update: replace in place if the key exists (keeping its
position), append otherwise. -/
def setAssoc {κ ν : Type} [DecidableEq κ] (key : κ) (v : ν) :
    List (κ × ν) → List (κ × ν)
  | [] => [(key, v)]
  | (k, v') :: rest =>
    if k = key then (key, v) :: rest else (k, v') :: setAssoc key v rest

/-! ## Terminology rules (src/unnamed/part_003) -/

namespace TerminologyRules

/-- `CONFUSABLE_TERMS`: primary term and its variant phrases (as token
sequences). -/
def CONFUSABLE_TERMS : List (String × List (List String)) :=
  [("deactivate", [["disable"], ["turn", "off"], ["switch", "off"], ["inactivate"]]),
   ("delete", [["remove"], ["erase"], ["clear"], ["discard"], ["trash"]]),
   ("enable", [["activate"], ["turn", "on"], ["switch", "on"]]),
   ("create", [["add"], ["make"], ["new"], ["generate"]]),
   ("edit", [["modify"], ["change"], ["update"], ["alter"]]),
   ("save", [["store"], ["keep"], ["preserve"]]),
   ("cancel", [["abort"], ["stop"], ["terminate"], ["end"]]),
   ("connect", [["link"], ["attach"], ["join"], ["integrate"]]),
   ("disconnect", [["unlink"], ["detach"], ["separate"], ["remove", "connection"]]),
   ("configure", [["set", "up"], ["setup"], ["customize"], ["adjust"]]),
   ("install", [["set", "up"], ["add"], ["deploy"]]),
   ("uninstall", [["remove"], ["delete"], ["uninstall"]])]

/-- `STOP_WORDS`. -/
def STOP_WORDS : List String :=
  ["the", "and", "that", "this", "with", "from", "your", "you", "for", "are", "was",
   "were", "will", "have", "has", "had", "then", "than", "into", "onto", "over",
   "under", "after", "before", "when", "where", "what", "which", "who", "whom",
   "why", "how", "can", "cannot", "could", "should", "would", "not", "yes", "no",
   "use", "using", "used", "via", "per", "each"]

/-- Collapse runs of hyphens into one (the second `replace` of
`normalizeTerm`). -/
def collapseHyphens : List Char → List Char
  | [] => []
  | c :: rest =>
    let r := collapseHyphens rest
    if c == '-' && (match r with | '-' :: _ => true | _ => false) then r
    else c :: r

/-- `replace(/(ing|ed|es|s)$/i, '')`: strip the leftmost-starting matching
suffix (the `ing` alternative starts earliest, then `ed`/`es`, then `s`). -/
def stripVariantSuffix (s : String) : String :=
  if s.endsWith ("ing") then s.dropRight 3
  else if s.endsWith ("ed") then s.dropRight 2
  else if s.endsWith ("es") then s.dropRight 2
  else if s.endsWith ("s") then s.dropRight 1
  else s

/-- `normalizeTerm`: lowercase, drop non `[a-z0-9-]` characters, collapse
hyphen runs, strip a plural/inflection suffix. -/
def normalizeTerm (term : String) : String :=
  let lowered := term.toLower.data
  let filtered := lowered.filter (fun c => c.isLower || c.isDigit || c = '-')
  stripVariantSuffix (String.mk (collapseHyphens filtered))

/-- A confusable-term group: per-variant occurrence counts plus their total.
Variants are keyed by the variant phrase (token sequence). -/
structure TermGroup where
  variants : List (List String × ℕ)
  total : ℕ
deriving DecidableEq, Repr

/-- `extractActionTerms` (part_003 lines 69-93): for every confusable-term
group, count word-boundary occurrences of each phrase; groups with at least
one matching phrase are recorded in table order. -/
def extractActionTerms (text : List String) : List (String × TermGroup) :=
  CONFUSABLE_TERMS.foldl (fun terms entry =>
    let allTerms := [[entry.1]] ++ entry.2
    allTerms.foldl (fun terms term =>
      let c := countPhrase term text
      if 0 < c then
        match terms.lookup entry.1 with
        | some g =>
          setAssoc entry.1
            ({ variants := setAssoc term c g.variants, total := g.total + c } :
              TermGroup) terms
        | none => terms ++ [(entry.1, { variants := [(term, c)], total := c })]
      else terms) terms) []

/-- A suffix-normalized token cluster: per-token counts plus their total. -/
structure TokGroup where
  variants : List (String × ℕ)
  total : ℕ
deriving DecidableEq, Repr

/-- `extractTerminologyClusters` (part_003 lines 45-62). -/
def extractTerminologyClusters (text : List String) : List (String × TokGroup) :=
  text.foldl (fun clusters token =>
    if token.length < 4 || STOP_WORDS.contains token then clusters
    else
      let root := normalizeTerm token
      if root = "" || root.length < 3 then clusters
      else
        match clusters.lookup root with
        | some g =>
          setAssoc root
            ({ variants := Parser.assocIncr token g.variants, total := g.total + 1 } :
              TokGroup) clusters
        | none => clusters ++ [(root, { variants := [(token, 1)], total := 1 })]) []

/-- Render a variant phrase for issue text. -/
def termStr (t : List String) : String := String.intercalate (" ") t

/-- `scoreTermConsistency` (AV-01, part_003 lines 101-173).  The JS result
additionally carries a `termAnalysis` debug field (the raw term table),
which no consumer reads and which we omit. -/
def scoreTermConsistency (content : Content) : CriterionResult :=
  let text := content.text.fullText
  let terms := extractActionTerms text
  let clusters := extractTerminologyClusters text
  let groupAcc := terms.foldl (fun (acc : ℕ × ℕ × List Issue) entry =>
    let data := entry.2
    if 1 < data.variants.length then
      let totalGroups := acc.1 + 1
      let sorted := sortLe (fun a b => decide (b.2 ≤ a.2)) data.variants
      let mostUsed : List String × ℕ := sorted.headD (([], 0))
      let otherVariants := sorted.filter (fun e => e.1 ≠ mostUsed.1)
      if 0 < otherVariants.length then
        let significantVariants := otherVariants.filter (fun e => 1 < e.2)
        let newIssues : List Issue :=
          if 0 < significantVariants.length ∨ 2 < (otherVariants.map (·.2)).sum then
            [{ severity := "warning"
               message := "Inconsistent terminology: \"" ++ entry.1 ++
                 "\" concept uses multiple terms"
               details := some (String.intercalate (", ") (sorted.map (fun e =>
                 "\"" ++ termStr e.1 ++ "\" (" ++ toString e.2 ++ "x)")))
               fix := "Standardize on \"" ++ termStr mostUsed.1 ++
                 "\" throughout the documentation" }]
          else []
        (totalGroups, acc.2.1 + 1, acc.2.2 ++ newIssues)
      else (totalGroups, acc.2.1, acc.2.2)
    else acc) (0, 0, [])
  let totalGroups := groupAcc.1
  let inconsistentGroups := groupAcc.2.1
  let clusterAcc := clusters.foldl (fun (acc : ℕ × List Issue) entry =>
    let data := entry.2
    let significantVariants := (data.variants.filter (fun e => 2 ≤ e.2)).map (·.1)
    if significantVariants.length < 2 ∨ data.total < 4 then acc
    else if significantVariants.all (fun term =>
        term == entry.1 || term == entry.1 ++ "s") then acc
    else
      (acc.1 + 1, acc.2 ++
        [{ severity := "info"
           message := "Potential terminology variants for \"" ++ entry.1 ++ "\""
           details := some (String.intercalate (", ") (significantVariants.map (fun term =>
             "\"" ++ term ++ "\" (" ++
               toString ((data.variants.lookup term).getD 0) ++ "x)")))
           fix := "Standardize on a single term for \"" ++ entry.1 ++
             "\" where possible" }])) (0, [])
  let clusterInconsistencies := clusterAcc.1
  let issues := groupAcc.2.2 ++ clusterAcc.2
  let score0 : ℚ :=
    if 0 < totalGroups then
      jround ((1 - (inconsistentGroups : ℚ) / (totalGroups : ℚ)) * 10)
    else 10
  let criticalIssues := (issues.filter (fun i => i.severity == "critical")).length
  let score := max 0 (score0 - (criticalIssues : ℚ) * 2 -
    min 3 (clusterInconsistencies : ℚ))
  { criterionId := "AV-01"
    score := .num score
    issues := issues
    details := "Analyzed " ++ toString totalGroups ++ " term groups. " ++
      toString inconsistentGroups ++ " have inconsistent usage. " ++
      toString clusterInconsistencies ++ " potential synonym clusters detected." }

/-- The fixed high-risk pair list of `detectConfusableTerms`. -/
def highRiskPairs : List (List String × String) :=
  [(["delete", "remove"], "data operations"),
   (["deactivate", "disable"], "state changes"),
   (["uninstall", "remove"], "application management")]

/-- `detectConfusableTerms` (AV-02, part_003 lines 180-218): flag each
high-risk pair whose two terms both occur (word-boundary matching), score
`max(0, 10 - 2 * flaggedPairs)`. -/
def detectConfusableTerms (content : Content) : CriterionResult :=
  let text := content.text.fullText
  let issues := highRiskPairs.flatMap (fun pair =>
    let counts := (pair.1.map (fun term => (term, text.count term))).filter
      (fun t => 0 < t.2)
    if 1 < counts.length then
      [{ severity := "warning"
         message := "Potentially confusable terms in " ++ pair.2 ++ ": " ++
           String.intercalate (" and ") (counts.map (fun c => "\"" ++ c.1 ++ "\""))
         details := some (String.intercalate (", ") (counts.map (fun c =>
           "\"" ++ c.1 ++ "\" used " ++ toString c.2 ++ "x")))
         fix := "Ensure \"" ++ pair.1.headD "" ++ "\" and \"" ++
           (pair.1.getD 1 "") ++
           "\" have clearly distinct meanings or standardize on one term" }]
    else [])
  { criterionId := "AV-02"
    score := .num (max 0 (10 - (issues.length : ℚ) * 2))
    issues := issues
    details := "Checked " ++ toString highRiskPairs.length ++ " high-risk term pairs" }

/-- `TerminologyRules.scoreAll` (part_003 lines 225-260). -/
def scoreAll (content : Content) (cfg : Config) : RuleResults :=
  let criteria : List (String × CriterionResult) :=
    [("AV-01", scoreTermConsistency content),
     ("AV-02", detectConfusableTerms content)]
  let weights : List (String × ℚ) :=
    [("AV-01", jsOr cfg.av01.weight (6/10)),
     ("AV-02", jsOr cfg.av02.weight (4/10))]
  { categoryId := "CAT-02"
    categoryName := "Consistent Terminology"
    criteria := criteria
    categoryScore := ContentStructureRules.weightedCategoryScore weights (1/2) criteria
    allIssues := sortBySev (criteria.flatMap (fun c => c.2.issues)) }

end TerminologyRules

/-! ## Text-over-visuals rules (src/unnamed/part_004) -/

namespace TextOverVisualsRules

/-- The `/^(step|click|select|go to|navigate|open)/i` prefix test of
`scoreTextFirst` (no word boundary, no trim). -/
def tbProcStart (item : String) : Bool :=
  ["step", "click", "select", "go to", "navigate", "open"].any (fun v =>
    (item.toLower).startsWith v)

/-- `scoreTextFirst` (TB-01, part_004 lines 14-86). -/
def scoreTextFirst (metrics : Metrics) (content : Content) : CriterionResult :=
  if metrics.images.count = 0 then
    { criterionId := "TB-01", score := .num 10, issues := []
      details := "No images found - content is fully text-based" }
  else
    let images := metrics.images
    let contentMetrics := metrics.content
    let imageDensity := images.imageToTextR
    let densityPart : ℚ × List Issue :=
      if 2 < imageDensity then
        (4, [{ severity := "critical"
               message := "Content is heavily image-dependent"
               details := some (toString images.count ++ " images for " ++
                 toString contentMetrics.wordCount ++ " words")
               fix := "Add text descriptions for key steps shown in images. AI assistants cannot interpret screenshots." }])
      else if 1 < imageDensity then
        (6, [{ severity := "warning"
               message := "Content relies significantly on images"
               details := some (toString images.count ++ " images for " ++
                 toString contentMetrics.wordCount ++ " words")
               fix := "Ensure each image has accompanying text that describes the action or concept" }])
      else if 1/2 < imageDensity then
        (8, [{ severity := "info"
               message := "Good text-to-image balance, minor improvements possible"
               fix := "Consider adding brief text summaries for complex diagrams" }])
      else (10, [])
    let hasProceduralContent := content.structure'.lists.any (fun list =>
      list.type == "ol" || list.items.any tbProcStart)
    let proceduralPart : ℚ × List Issue :=
      if hasProceduralContent ∧ 5 < images.count then
        (min densityPart.1 7,
         [{ severity := "warning"
            message := "Procedural content with many screenshots"
            details := some (toString images.count ++ " images with procedural lists detected")
            fix := "Ensure step text is complete without needing to reference images" }])
      else (densityPart.1, [])
    { criterionId := "TB-01"
      score := .num proceduralPart.1
      issues := densityPart.2 ++ proceduralPart.2
      details := "Image density: " ++ toString imageDensity ++
        " images per 100 words. " ++ toString images.count ++ " images total." }

/-- `scoreImageRatio` (TB-02, part_004 lines 94-139); the name is shortened
to `scoreImageR` here. -/
def scoreImageR (metrics : Metrics) : CriterionResult :=
  if metrics.content.totalBlocks = 0 then
    { criterionId := "TB-02", score := .num 5
      issues := [{ severity := "info"
                   message := "Unable to assess - no content blocks found" }]
      details := "No content blocks to analyze" }
  else
    let contentMetrics := metrics.content
    let r := contentMetrics.visualToContentR
    let idealMax : ℚ := 33/100
    let score : ℚ :=
      if r ≤ idealMax then 8 + jround ((1 - r / idealMax) * 2)
      else if r ≤ 1/2 then 5 + jround ((1/2 - r) / (17/100) * 2)
      else max 0 (jround ((1 - r) * 8))
    let issues : List Issue :=
      if idealMax < r then
        [{ severity := if (1/2 : ℚ) < r then "critical" else "warning"
           message := "Visual content ratio exceeds ideal"
           details := some (toString contentMetrics.visualBlocks ++
             " visual blocks out of " ++ toString contentMetrics.totalBlocks ++ " total")
           fix := "Add more text-based explanations to balance the visual content" }]
      else []
    { criterionId := "TB-02"
      score := .num score
      issues := issues
      details := "Visual-to-content ratio vs ideal max 33%" }

/-- Last path segment, truncated to 50 characters
(`img.src.split('/').pop().substring(0, 50)`). -/
def lastSeg (s : String) : String := ((s.splitOn ("/")).getLastD "").take 50

/-- `scoreAltTextCoverage` (TB-03, part_004 lines 147-195). -/
def scoreAltTextCoverage (metrics : Metrics) : CriterionResult :=
  if metrics.images.count = 0 then
    { criterionId := "TB-03", score := .num 10, issues := []
      details := "No images to check for alt text" }
  else
    let images := metrics.images
    let coverage := images.altTextCoverage
    let score := jround (coverage * 10)
    let issues : List Issue :=
      if 0 < images.withoutAlt then
        [{ severity :=
             if coverage < 1/2 then "critical"
             else if coverage < 8/10 then "warning" else "info"
           message := toString images.withoutAlt ++ " of " ++ toString images.count ++
             " images missing alt text"
           details := some "Images without alt text are invisible to AI assistants"
           fix := "Add descriptive alt text to all images explaining what they show" }] ++
        (if images.missingAlt.length ≤ 5 then
          images.missingAlt.map (fun img =>
            { severity := "info"
              message := "Image " ++ toString (img.index + 1) ++ " missing alt text"
              location := some (lastSeg img.src)
              fix := "Add alt attribute describing the image content" })
        else [])
      else []
    { criterionId := "TB-03"
      score := .num score
      issues := issues
      details := "Alt text coverage " ++ toString images.withAlt ++ "/" ++
        toString images.count ++ " images" }

/-- `TextOverVisualsRules.scoreAll` (part_004 lines 203-240). -/
def scoreAll (metrics : Metrics) (content : Content) (cfg : Config) : RuleResults :=
  let criteria : List (String × CriterionResult) :=
    [("TB-01", scoreTextFirst metrics content),
     ("TB-02", scoreImageR metrics),
     ("TB-03", scoreAltTextCoverage metrics)]
  let weights : List (String × ℚ) :=
    [("TB-01", jsOr cfg.tb01.weight (35/100)),
     ("TB-02", jsOr cfg.tb02.weight (35/100)),
     ("TB-03", jsOr cfg.tb03.weight (30/100))]
  { categoryId := "CAT-08"
    categoryName := "Text Over Visuals"
    criteria := criteria
    categoryScore := ContentStructureRules.weightedCategoryScore weights (33/100) criteria
    allIssues := sortBySev (criteria.flatMap (fun c => c.2.issues)) }

end TextOverVisualsRules

/-! ## Claude client transform (src/js/claude-client.js) -/

/-- One criterion of the raw semantic response (`§6` contract shape). -/
structure RawCriterion where
  score : ℚ
  explanation : String
  issues : List String
  fixes : List String
deriving DecidableEq, Repr

/-- The raw semantic response (post JSON parse). -/
structure ClaudeRaw where
  scores : List (String × RawCriterion)
  summary : String := ""
  topIssues : List String := []
deriving DecidableEq, Repr

/-- The transformed semantic result, in the rule evaluators' record shape. -/
structure TransformedScores where
  scores : List (String × CriterionResult)
  summary : String
  topIssues : List String
deriving DecidableEq, Repr

/-- `ClaudeClient.transformScores` (claude-client.js lines 212-233): carry the
raw score through unchanged, derive issue severity from it (`<4` critical,
`<7` warning, else info), pair issues with fixes by index. -/
def transformScores (claudeScores : ClaudeRaw) : TransformedScores :=
  { scores := claudeScores.scores.map (fun entry =>
      let data := entry.2
      (entry.1,
       { criterionId := entry.1
         score := .num data.score
         issues := data.issues.enum.map (fun (p : ℕ × String) =>
           { severity :=
               if data.score < 4 then "critical"
               else if data.score < 7 then "warning" else "info"
             message := p.2
             fix := jsOrS (data.fixes.get? p.1) ("Review and improve this area") })
         details := data.explanation }))
    summary := claudeScores.summary
    topIssues := claudeScores.topIssues }

/-! ## Aggregation engine (src/js/scorer.js) -/

/-- Per-section result of the optional section rollup. -/
structure SectionScore where
  title : String
  level : ℕ
  score : JSNum
  criteria : List (String × CriterionResult)
  issues : List Issue
  wordCount : ℕ
deriving DecidableEq, Repr

/-- A CategoryResult of the final report. -/
structure CategoryResult where
  id : String
  name : String
  score : Option JSNum
  weight : Option ℚ
  criteria : List (String × CriterionResult)
  issues : List Issue
  estimated : Bool := false
  message : Option String := none
  sectionScores : List SectionScore := []
  sectionRollup : Option JSNum := none
deriving DecidableEq, Repr

/-- The ordered category map of a report. -/
abbrev Categories := List (String × CategoryResult)

/-- An issue annotated with its category name and key
(`{...issue, category, categoryKey}`). -/
structure AnnIssue where
  issue : Issue
  category : String
  categoryKey : String
deriving DecidableEq, Repr

/-- A cached semantic evaluation (`{raw, transformed, savedAt}`). -/
structure CacheEntry where
  raw : ClaudeRaw
  transformed : TransformedScores
  savedAt : String := ""
deriving DecidableEq, Repr

/-- Report metadata. -/
structure ReportMeta where
  url : String
  title : String
  scoredAt : String
  mode : String
  claudeError : Option String := none
  claudeCache : Option String := none
deriving DecidableEq, Repr

/-- The final ScoreReport. -/
structure ScoreReport where
  meta : ReportMeta
  categories : Categories
  compositeScore : JSNum
  status : String
  allIssues : List AnnIssue
  topIssues : List AnnIssue
  summary : String
  claudeSummary : Option String := none
  claudeTopIssues : List String := []
  sections : List SectionScore := []
deriving DecidableEq, Repr

namespace Scorer

/-- `Scorer.CATEGORY_WEIGHTS` (scorer.js lines 8-15). -/
def CATEGORY_WEIGHTS : List (String × ℚ) :=
  [("content-structure", 30/100),
   ("outcomes-reversibility", 25/100),
   ("terminology", 15/100),
   ("text-over-visuals", 10/100),
   ("self-contained", 5/100),
   ("permissions-plans", 15/100)]

/-- `averageScores` (scorer.js lines 499-506): unweighted mean of the
criterion scores, rounded to one decimal; 0 on an empty criteria map.  (The
JS `typeof s === 'number'` filter is a no-op in this model too: every
criterion score is a JS number, and `typeof NaN === 'number'`, so NaN also
passes the filter and poisons the mean.) -/
def averageScores (criteria : List (String × CriterionResult)) : JSNum :=
  if (criteria.map (fun c => c.2.score)).length = 0 then .num 0
  else
    let scores : List JSNum := criteria.map (fun c => c.2.score)
    round1J (divJ (jsum scores) (.num (scores.length : ℚ)))

/-- The weight resolution of `calculateCompositeScore`:
`category.weight || CATEGORY_WEIGHTS[key] || 0`. -/
def categoryWeight (key : String) (category : CategoryResult) : ℚ :=
  jsOr category.weight (jsOr (CATEGORY_WEIGHTS.lookup key) 0)

/-- `calculateCompositeScore` (scorer.js lines 513-530): weighted sum over
categories with a non-null, non-estimated score, renormalized by the sum of
the included weights; 0 when nothing qualifies; rounded to one decimal. -/
def calculateCompositeScore (categories : Categories) : JSNum :=
  let acc := categories.foldl (fun (acc : JSNum × ℚ) entry =>
    match entry.2.score, entry.2.estimated with
    | some s, false =>
      let weight := categoryWeight entry.1 entry.2
      (addJ acc.1 (mulJ s (.num weight)), acc.2 + weight)
    | _, _ => acc) (.num 0, 0)
  if acc.2 = 0 then .num 0 else round1J (divJ acc.1 (.num acc.2))

/-- `getStatus` (scorer.js lines 537-541); `NaN >= t` is false, so a NaN
composite reads "red". -/
def getStatus (score : JSNum) : String :=
  if geQJ score 7 then "green" else if geQJ score 4 then "yellow" else "red"

/-- `collectAllIssues` (scorer.js lines 548-564): flatten all categories'
issues with category annotations, stable-sort by severity with unknown
severities ranked last (`?? 3`). -/
def collectAllIssues (categories : Categories) : List AnnIssue :=
  sortByRank (fun a => sevRank a.issue.severity)
    (categories.flatMap (fun entry =>
      entry.2.issues.map (fun issue =>
        { issue := issue, category := entry.2.name, categoryKey := entry.1 })))

/-- `getTopIssues` (scorer.js lines 572-574). -/
def getTopIssues (issues : List AnnIssue) (n : ℕ) : List AnnIssue := issues.take n

/-- Replace the value of one category key in place. -/
def updateCat (key : String) (f : CategoryResult → CategoryResult)
    (categories : Categories) : Categories :=
  categories.map (fun entry => if entry.1 = key then (entry.1, f entry.2) else entry)

/-- The per-ID collection loop of `addClaudeScores`: collect the transformed
criteria present among `ids`, concatenating their issues. -/
def claudeCategory (scores : List (String × CriterionResult)) (ids : List String) :
    List (String × CriterionResult) × List Issue :=
  ids.foldl (fun acc id =>
    match scores.lookup id with
    | some c => (acc.1 ++ [(id, c)], acc.2 ++ c.issues)
    | none => acc) ([], [])

/-- `addClaudeScores` category-map part (scorer.js lines 157-243): create the
three Claude-scored categories, merge the cross-cutting criteria into
content-structure and terminology, and recompute the content-structure score
as the unweighted mean of all its criteria. -/
def addClaudeScores (categories : Categories) (transformed : TransformedScores) :
    Categories :=
  let scores := transformed.scores
  let orPart := claudeCategory scores ["OR-01", "OR-02", "OR-03", "OR-04"]
  let categories := setAssoc ("outcomes-reversibility")
    ({ id := "CAT-03"
       name := "Outcomes & Reversibility"
       score := some (averageScores orPart.1)
       weight := CATEGORY_WEIGHTS.lookup ("outcomes-reversibility")
       criteria := orPart.1
       issues := orPart.2 } : CategoryResult) categories
  let scPart := claudeCategory scores ["GAP-03", "GAP-04"]
  let categories := setAssoc ("self-contained")
    ({ id := "CAT-09"
       name := "Self-Contained Context"
       score := some (averageScores scPart.1)
       weight := CATEGORY_WEIGHTS.lookup ("self-contained")
       criteria := scPart.1
       issues := scPart.2 } : CategoryResult) categories
  let ppPart := claudeCategory scores ["PP-01", "PP-02", "PP-03", "PP-04"]
  let categories := setAssoc ("permissions-plans")
    ({ id := "CAT-04"
       name := "Permissions & Plans"
       score := some (averageScores ppPart.1)
       weight := CATEGORY_WEIGHTS.lookup ("permissions-plans")
       criteria := ppPart.1
       issues := ppPart.2 } : CategoryResult) categories
  let categories := match scores.lookup ("CS-03") with
    | some c => updateCat ("content-structure") (fun cat =>
        { cat with criteria := setAssoc ("CS-03") c cat.criteria
                   issues := cat.issues ++ c.issues }) categories
    | none => categories
  let categories := match scores.lookup ("CS-05") with
    | some c => updateCat ("content-structure") (fun cat =>
        { cat with criteria := setAssoc ("CS-05") c cat.criteria
                   issues := cat.issues ++ c.issues }) categories
    | none => categories
  let categories := match scores.lookup ("AV-02") with
    | some c => updateCat ("terminology") (fun cat =>
        match cat.criteria.lookup ("AV-02") with
        | some existing =>
          let merged : CriterionResult :=
            { existing with
              score := jroundJ (divJ (addJ existing.score c.score) (.num 2))
              issues := existing.issues ++ c.issues }
          { cat with criteria := setAssoc ("AV-02") merged cat.criteria }
        | none => cat) categories
    | none => categories
  updateCat ("content-structure") (fun cat =>
    { cat with score := some (averageScores cat.criteria) }) categories

/-- `addEstimatedScores` (scorer.js lines 253-375): heuristic Estimator for
the three Claude-dependent categories, each marked `estimated`. -/
def addEstimatedScores (categories : Categories) (content : Content)
    (metrics : Metrics) : Categories :=
  let text := content.text.fullText
  let destructiveTerms : List (List String) :=
    [["delete"], ["remove"], ["erase"], ["discard"], ["wipe"], ["purge"]]
  let warningTerms : List (List String) :=
    [["cannot", "be", "undone"], ["irreversible"], ["permanent"], ["warning"],
     ["caution"]]
  let outcomeTerms : List (List String) :=
    [["will"], ["results", "in"], ["creates"], ["updates"], ["changes"], ["affects"]]
  let destrNoWarn := hasAny text destructiveTerms && !hasAny text warningTerms
  let outcomeIssues : List Issue :=
    if destrNoWarn then
      [{ severity := "warning"
         message := "Destructive actions detected without reversibility warning"
         fix := "Add a warning if actions are irreversible or destructive" }]
    else []
  let outcomeScore : ℚ := max 0 (min 10
    (6 - (if destrNoWarn then 2 else 0) + (if hasAny text outcomeTerms then 1 else 0)))
  let categories := setAssoc ("outcomes-reversibility")
    ({ id := "CAT-03"
       name := "Outcomes & Reversibility"
       score := some (.num outcomeScore)
       weight := CATEGORY_WEIGHTS.lookup ("outcomes-reversibility")
       criteria := [("EST-OR",
        { criterionId := "EST-OR", score := .num outcomeScore, issues := outcomeIssues
          details := "Estimated from keyword heuristics (no Claude)" })]
       issues := outcomeIssues
       estimated := true
       message := some ("Estimated using heuristic checks (no Claude)") } :
       CategoryResult) categories
  let permissionTerms : List (List String) :=
    [["admin"], ["permission"], ["role"], ["access"], ["privilege"]]
  let planTerms : List (List String) :=
    [["plan"], ["edition"], ["subscription"], ["upgrade"]]
  let hasPerm := hasAny text permissionTerms
  let hasPlan := hasAny text planTerms
  let permissionsIssues : List Issue :=
    if !hasPerm && !hasPlan then
      [{ severity := "info"
         message := "No explicit permissions or plan requirements detected"
         fix := "Call out required roles, permissions, or plan editions if applicable" }]
    else []
  let permissionsScore : ℚ := max 0 (min 10
    (6 + (if hasPerm then 1 else 0) + (if hasPlan then 1 else 0) -
       (if !hasPerm && !hasPlan then 1 else 0)))
  let categories := setAssoc ("permissions-plans")
    ({ id := "CAT-04"
       name := "Permissions & Plans"
       score := some (.num permissionsScore)
       weight := CATEGORY_WEIGHTS.lookup ("permissions-plans")
       criteria := [("EST-PP",
        { criterionId := "EST-PP", score := .num permissionsScore
          issues := permissionsIssues
          details := "Estimated from keyword heuristics (no Claude)" })]
       issues := permissionsIssues
       estimated := true
       message := some ("Estimated using heuristic checks (no Claude)") } :
       CategoryResult) categories
  let extLinks := metrics.links.internal < metrics.links.external
  let lowWords := metrics.content.wordCount < 200
  let noHeadings := metrics.headings.count = 0
  let contextIssues : List Issue :=
    (if extLinks then
      [{ severity := "info"
         message := "Relies heavily on external links for context"
         fix := "Ensure critical context is included in the page" }] else []) ++
    (if lowWords then
      [{ severity := "info"
         message := "Low word count may indicate insufficient context"
         fix := "Add more context so the page can stand alone" }] else []) ++
    (if noHeadings then
      [{ severity := "warning"
         message := "No headings detected to anchor context"
         fix := "Add headings to clarify context and structure" }] else [])
  let contextScore : ℚ := max 0 (min 10
    (6 - (if extLinks then 1 else 0) - (if lowWords then 1 else 0) -
       (if noHeadings then 1 else 0)))
  setAssoc ("self-contained")
    ({ id := "CAT-09"
       name := "Self-Contained Context"
       score := some (.num contextScore)
       weight := CATEGORY_WEIGHTS.lookup ("self-contained")
       criteria := [("EST-SC",
        { criterionId := "EST-SC", score := .num contextScore, issues := contextIssues
          details := "Estimated from page structure heuristics (no Claude)" })]
       issues := contextIssues
       estimated := true
       message := some ("Estimated using heuristic checks (no Claude)") } :
       CategoryResult) categories

/-- `buildSectionMetrics` inside `addSectionScores` (scorer.js lines 382-460).
The JS heading record carries only `count`, `hasH1`, `hierarchyValid`,
`levels` and `distribution`; the remaining heading fields (unread by the two
criteria run on section metrics) are defaulted. -/
def buildSectionMetrics (sec : Section) : Metrics :=
  let paragraphLengths : List ℕ := sec.paragraphs.map (·.wordCount)
  let longParagraphs := sec.paragraphs.filter (fun p => 150 < p.wordCount)
  let avgParagraphLength : ℚ :=
    if paragraphLengths.length ≠ 0 then
       (paragraphLengths.sum : ℚ) / (paragraphLengths.length : ℚ)
    else 0
  let totalListItems := (sec.lists.map (·.itemCount)).sum
  let listToParaR : ℚ :=
    if sec.paragraphs.length ≠ 0 then
       (sec.lists.length : ℚ) / (sec.paragraphs.length : ℚ)
    else 0
  let imagesWithAlt := (sec.images.filter (·.hasAlt)).length
  let altCov : ℚ :=
    if sec.images.length ≠ 0 then
       (imagesWithAlt : ℚ) / (sec.images.length : ℚ)
    else 1
  let totalContentBlocks := sec.paragraphs.length + sec.lists.length +
    sec.tables + sec.codeBlocks
  let visualBlocks := sec.images.length + sec.tables
  let visualToContentR : ℚ :=
    if totalContentBlocks ≠ 0 then (visualBlocks : ℚ) / (totalContentBlocks : ℚ)
    else 0
  { paragraphs :=
      { count := sec.paragraphs.length
        avgLength := jround avgParagraphLength
        maxLength := paragraphLengths.foldr max 0
        longCount := longParagraphs.length
        longParagraphs := longParagraphs.enum.map (fun p =>
          { text := p.2.text.take 100 ++ "...", wordCount := p.2.wordCount
            index := p.1 })
        sentences := some
          { total := 0, avgLength := 0, longCount := 0, complexCount := 0
            longSamples := [] } }
    headings :=
      { count := if sec.title ≠ "" then 1 else 0
        hasH1 := sec.level = 1
        hasH2 := false
        h1Count := 0
        h2Count := 0
        firstLevel := none
        hierarchyValid := { valid := true, issues := [] }
        levels := if sec.level ≠ 0 then [sec.level] else []
        distribution :=
          if sec.level ≠ 0 then [("h" ++ toString sec.level, 1)] else [] }
    lists :=
      { count := sec.lists.length
        totalItems := totalListItems
        listToParagraphR := round2 listToParaR
        orderedCount := 0
        proceduralCount := 0
        descriptiveCount := 0 }
    images :=
      { count := sec.images.length
        withAlt := imagesWithAlt
        withoutAlt := sec.images.length - imagesWithAlt
        altTextCoverage := round2 altCov
        imageToTextR :=
          if sec.wordCount ≠ 0 then
            round2 ((sec.images.length : ℚ) / ((sec.wordCount : ℚ) / 100))
          else 0
        missingAlt := [] }
    content :=
      { totalBlocks := totalContentBlocks
        visualBlocks := visualBlocks
        visualToContentR := round2 visualToContentR
        wordCount := sec.wordCount
        codeBlocks := sec.codeBlocks
        tables := sec.tables }
    links := { total := 0, internal := 0, external := 0 } }

/- Note: the JS `lists` record of `buildSectionMetrics` lacks `orderedCount`,
`proceduralCount` and `descriptiveCount`; they are modelled as 0, under which
the procedural checks of `scoreListUsage` behave exactly as on the JS
`undefined` reads (`undefined > 0` is false), so none of those penalties can
fire either way.  The JS section metrics carry no `links` record at all; the
section scoring runs only CS-01/CS-02, which never read it, and the model
fills an all-zero record with `brokenCount := none`. -/

/-- The per-section body of `addSectionScores`: CS-01/CS-02 run on the
section metrics, the section score being their rounded mean. -/
def sectionScoreOf (cfg : Config) (sec : Section) : SectionScore :=
  let m := buildSectionMetrics sec
  let brevity := ContentStructureRules.scoreParagraphBrevity m cfg
  let listUsage := ContentStructureRules.scoreListUsage m cfg
  { title := sec.title
    level := sec.level
    score := round1J (divJ (addJ brevity.score listUsage.score) (.num 2))
    criteria := [("CS-01", brevity), ("CS-02", listUsage)]
    issues := brevity.issues ++ listUsage.issues
    wordCount := sec.wordCount }

/-- The rollup figure of `addSectionScores`: the rounded mean of the
per-section scores. -/
def sectionRollupOf (cfg : Config) (secs : List Section) : JSNum :=
  round1J (divJ (jsum ((secs.map (sectionScoreOf cfg)).map
      (fun (s : SectionScore) => s.score)))
    (.num (((secs.map (sectionScoreOf cfg)).length : ℚ))))

/-- `addSectionScores` (scorer.js lines 377-492): per-section CS-01/CS-02
scores, their rollup, and the blend into the content-structure category. -/
def addSectionScores (categories : Categories) (content : Content) (cfg : Config) :
    Categories × List SectionScore :=
  if content.sections.isEmpty then (categories, [])
  else
    (updateCat ("content-structure") (fun cat =>
      { cat with
        sectionScores := content.sections.map (sectionScoreOf cfg)
        sectionRollup := some (sectionRollupOf cfg content.sections)
        score := some (round1J (divJ
          (addJ (cat.score.getD (.num 0)) (sectionRollupOf cfg content.sections))
          (.num 2))) })
      categories,
     content.sections.map (sectionScoreOf cfg))

/-- `generateSummary` (scorer.js lines 581-613).  Rational-number rendering
via `toString` stands in for JS number formatting in the summary text (NaN
prints "NaN").  The JS sort comparator `a.score - b.score` reaches the sort
through `ToInteger`, under which a NaN difference counts as 0 (keep order);
`valJ` of the difference models that. -/
def generateSummary (compositeScore : JSNum) (status : String)
    (categories : Categories) : String :=
  let base :=
    if status = "green" then
       "This documentation scores well for AI-friendliness (" ++
        toString compositeScore ++ "/10). "
    else if status = "yellow" then
       "This documentation needs improvement for AI-friendliness (" ++
        toString compositeScore ++ "/10). "
    else
       "This documentation has significant AI-friendliness issues (" ++
        toString compositeScore ++ "/10). "
  let sorted := sortLe (fun a b =>
       decide (valJ (subJ (a.2.score.getD (.num 0)) (b.2.score.getD (.num 0))) ≤ 0))
    (categories.filter (fun c => c.2.score.isSome))
  let extra :=
    match sorted.head?, sorted.getLast? with
    | some weakest, some strongest =>
       (if ltQJ (weakest.2.score.getD (.num 0)) 6 then
        "Weakest area: " ++ weakest.2.name ++ " (" ++
          toString (weakest.2.score.getD (.num 0)) ++ "/10). "
       else "") ++
       (if geQJ (strongest.2.score.getD (.num 0)) 7 then
        "Strongest area: " ++ strongest.2.name ++ " (" ++
          toString (strongest.2.score.getD (.num 0)) ++ "/10)."
       else "")
    | _, _ => ""
  (base ++ extra).trim

/-- The outcome of step 2 of `scoreAll` (the semantic-or-estimate branch). -/
structure StepTwo where
  categories : Categories
  claudeError : Option String := none
  cacheStatus : Option String := none
  claudeSummary : Option String := none
  claudeTopIssues : List String := []
deriving DecidableEq, Repr

/-- Step 1 of `scoreAll`: the three rule-based categories, in insertion
order. -/
def baseCategoriesOf (content : Content) (metrics : Metrics) (cfg : Config) :
    Categories :=
  [("content-structure",
    { id := "CAT-01"
      name := "Content Structure"
      score := some (ContentStructureRules.scoreAll metrics cfg).categoryScore
      weight := CATEGORY_WEIGHTS.lookup ("content-structure")
      criteria := (ContentStructureRules.scoreAll metrics cfg).criteria
      issues := (ContentStructureRules.scoreAll metrics cfg).allIssues }),
   ("terminology",
    { id := "CAT-02"
      name := "Consistent Terminology"
      score := some (TerminologyRules.scoreAll content cfg).categoryScore
      weight := CATEGORY_WEIGHTS.lookup ("terminology")
      criteria := (TerminologyRules.scoreAll content cfg).criteria
      issues := (TerminologyRules.scoreAll content cfg).allIssues }),
   ("text-over-visuals",
    { id := "CAT-08"
      name := "Text Over Visuals"
      score := some (TextOverVisualsRules.scoreAll metrics content cfg).categoryScore
      weight := CATEGORY_WEIGHTS.lookup ("text-over-visuals")
      criteria := (TextOverVisualsRules.scoreAll metrics content cfg).criteria
      issues := (TextOverVisualsRules.scoreAll metrics content cfg).allIssues })]

/-- `scoreAll` (scorer.js lines 31-140).  External collaborators are explicit
arguments: `apiKey` (nullable credential), `cache` (the stored entry a cache
lookup would return, if any), `claude` (the settled result of the remote
semantic call — a response or a thrown error message) and `now` (the wall
clock read for `meta.scoredAt`).  Progress callbacks are advisory and
omitted. -/
def scoreAll (content : Content) (metrics : Metrics) (cfg : Config)
    (apiKey : Option String) (cache : Option CacheEntry)
    (claude : Except String ClaudeRaw) (now : String) : ScoreReport :=
  let categories0 : Categories := baseCategoriesOf content metrics cfg
  let step2 : StepTwo :=
    match apiKey with
    | some _ =>
       (match cache with
       | some entry =>
         { categories := addClaudeScores categories0 entry.transformed
           cacheStatus := some ("hit")
           claudeSummary := some entry.raw.summary
           claudeTopIssues := entry.raw.topIssues }
       | none =>
         match claude with
         | .ok raw =>
           { categories := addClaudeScores categories0 (transformScores raw)
             cacheStatus := some ("miss")
             claudeSummary := some raw.summary
             claudeTopIssues := raw.topIssues }
         | .error err =>
           { categories := addEstimatedScores categories0 content metrics
             claudeError := some err })
    | none => { categories := addEstimatedScores categories0 content metrics }
  let sectioned := addSectionScores step2.categories content cfg
  let categories := sectioned.1
  let compositeScore := calculateCompositeScore categories
  let status := getStatus compositeScore
  let allIssues := collectAllIssues categories
  { meta :=
      { url := content.meta.url
        title := content.meta.title
        scoredAt := now
        mode := if apiKey.isSome then "full" else "rule-only"
        claudeError := step2.claudeError
        claudeCache := step2.cacheStatus }
    categories := categories
    compositeScore := compositeScore
    status := status
    allIssues := allIssues
    topIssues := getTopIssues allIssues 5
    summary := generateSummary compositeScore status categories
    claudeSummary := step2.claudeSummary
    claudeTopIssues := step2.claudeTopIssues
    sections := sectioned.2 }

end Scorer

/-! ## Spec-side definitions and concrete inputs used by the claims -/

namespace Claims

open Parser Scorer

/-- A score within the documented 0-10 range. -/
def scoreInRange (q : ℚ) : Prop := 0 ≤ q ∧ q ≤ 10

/-- A real (non-NaN) score within the documented 0-10 range. -/
def scoreInRangeJ (s : JSNum) : Prop := ∃ q, s = JSNum.num q ∧ 0 ≤ q ∧ q ≤ 10

/-- Every criterion score of a criteria map is in range. -/
def CriteriaOk (l : List (String × CriterionResult)) : Prop :=
  ∀ e ∈ l, scoreInRangeJ e.2.score

/-- The category score (when present) and all its criterion scores are in
range. -/
def CategoryOk (c : CategoryResult) : Prop :=
  (∀ s ∈ c.score, scoreInRangeJ s) ∧ CriteriaOk c.criteria

/-- Every category of the report satisfies `CategoryOk`. -/
def CategoriesOk (categories : Categories) : Prop :=
  ∀ e ∈ categories, CategoryOk e.2

/-- Every transformed semantic criterion score is in range. -/
def TransformedOk (t : TransformedScores) : Prop := CriteriaOk t.scores

/-- Every raw semantic response score is in range (the §6 contract). -/
def RawOk (raw : ClaudeRaw) : Prop := ∀ e ∈ raw.scores, scoreInRange e.2.score

/-- The composite-score formula as the spec words it: the weighted mean of
exactly the categories whose score is non-null and not estimated, divided by
the sum of the weights actually included, rounded to one decimal; 0 when no
category qualifies. -/
def compositeSpec (categories : Categories) : JSNum :=
  let qualified := categories.filter (fun e => e.2.score.isSome && !e.2.estimated)
  let totalWeight := (qualified.map (fun e => categoryWeight e.1 e.2)).sum
  let weightedSum :=
    jsum (qualified.map (fun e =>
      mulJ (e.2.score.getD (.num 0)) (.num (categoryWeight e.1 e.2))))
  if totalWeight = 0 then .num 0
  else round1J (divJ weightedSum (.num totalWeight))

/-- The renormalization example of the spec: categories
`{A: score 8 weight 0.5, B: score 6 weight 0.5, C: estimated}`. -/
def exampleCategories : Categories :=
  [("a", { id := "A", name := "A", score := some (.num 8), weight := some (1/2)
           criteria := [], issues := [] }),
   ("b", { id := "B", name := "B", score := some (.num 6), weight := some (1/2)
           criteria := [], issues := [] }),
   ("c", { id := "C", name := "C", score := none, weight := some (1/2)
           criteria := [], issues := [], estimated := true })]

/-- The skip positions of a heading-level list as the spec words them: the
positions whose level jumps forward by more than one relative to the
immediately preceding heading. -/
def skipPositions (levels : List ℕ) : List ℕ :=
  (List.range levels.length).filter (fun i =>
    decide (1 ≤ i ∧ levels.getD (i - 1) 0 + 1 < levels.getD i 0))

/-- The skip list of `hierGo`, with the issue records stripped to their
positions: the recursion scheme of the source scan, kept as bare indices. -/
def skipPositionsFrom (prev : ℕ) (idx : ℕ) : List ℕ → List ℕ
  | [] => []
  | c :: rest =>
    (if prev + 1 < c ∧ prev ≠ 0 then [idx] else []) ++
      skipPositionsFrom c (idx + 1) rest

/-- The positions of a level list that jump by more than one past a given
previous level (the first position compares against `prev`). -/
def skipPosAux (prev : ℕ) (levels : List ℕ) : List ℕ :=
  (List.range levels.length).filter (fun i =>
    decide ((if i = 0 then prev else levels.getD (i - 1) 0) + 1 < levels.getD i 0))

/-- The CS-01 long-sentence penalty as the spec words it: 1 when more than
20% of the sentences are long, else 0. -/
def longSentencePenalty (m : Metrics) : ℚ :=
  match m.paragraphs.sentences with
  | some s =>
    if 0 < s.total ∧ (1/5 : ℚ) < (s.longCount : ℚ) / (s.total : ℚ) then 1 else 0
  | none => 0

/-- The high-risk pairs in which both terms occur in the text
(word-boundary matching, i.e. token counting). -/
def flaggedPairs (content : Content) : ℕ :=
  (TerminologyRules.highRiskPairs.filter (fun pair =>
    pair.1.all (fun term => decide (0 < content.text.fullText.count term)))).length

/-- The flattening of all categories' issues with their category annotations,
before sorting — the spec-side description of `collectAllIssues`'s input. -/
def annotatedIssuesOf (categories : Categories) : List AnnIssue :=
  categories.flatMap (fun entry =>
    entry.2.issues.map (fun issue =>
      { issue := issue, category := entry.2.name, categoryKey := entry.1 }))

/-- The severity rank of an annotated issue. -/
def annRank (a : AnnIssue) : ℕ := sevRank a.issue.severity

/-- An empty content structure (no headings/paragraphs/lists/images/links). -/
def emptyStructure : ContentStructure :=
  { headings := [], paragraphs := [], lists := [], images := []
    tables := 0, codeBlocks := 0, callouts := 0, links := [] }

/-- A minimal page: empty structure and empty text. -/
def emptyContent : Content :=
  { meta := { url := "u", title := "t" }
    structure' := emptyStructure
    text := { fullText := [], wordCount := 0 } }

/-- A page with a single internal link and nothing else: src/js/parser.js
leaves `links.brokenCount` unset for it, so the CS-07 ratio divides
`undefined` by 1. -/
def linkedContent : Content :=
  { meta := { url := "u", title := "t" }
    structure' := { emptyStructure with links := [{ type := "internal" }] }
    text := { fullText := [], wordCount := 0 } }

/-- A semantic response carrying an out-of-range score 15 for OR-01 (the
remote collaborator violating its 0-10 contract). -/
def oversizedRaw : ClaudeRaw :=
  { scores := [("OR-01", { score := 15, explanation := "e", issues := []
                           fixes := [] })] }

/-- A semantic response with an empty score map (none of the expected
criterion IDs present). -/
def emptyRaw : ClaudeRaw := { scores := [] }

/-- A paragraph with the given index and word count. -/
def mkPara (i n : ℕ) : Paragraph := { text := "p", wordCount := n, index := i }

/-- The CS-01 scenario page: one 210-word paragraph and nine 20-word
paragraphs. -/
def brevityContent : Content :=
  { meta := { url := "u", title := "t" }
    structure' := { emptyStructure with
      paragraphs := mkPara 0 210 :: (List.range 9).map (fun i => mkPara (i + 1) 20) }
    text := { fullText := [], wordCount := 390 } }

/-- The AV-02 scenario text: "deactivate" three times and "disable" twice. -/
def confusableContent : Content :=
  { meta := { url := "u", title := "t" }
    structure' := emptyStructure
    text :=
      { fullText :=
          List.replicate 3 ("deactivate") ++ List.replicate 2 ("disable")
        wordCount := 5 } }

/-! ## Arithmetic helper lemmas -/

lemma jround_nonneg {q : ℚ} (h : 0 ≤ q) : 0 ≤ jround q := by
  unfold jround
  have h2 : (0 : ℤ) ≤ ⌊q + 1/2⌋ := Int.le_floor.mpr (by push_cast; linarith)
  exact_mod_cast h2

lemma jround_le_int {q : ℚ} {z : ℤ} (h : q ≤ (z : ℚ)) : jround q ≤ (z : ℚ) := by
  unfold jround
  have h2 : ⌊q + 1/2⌋ ≤ ⌊(z : ℚ) + 1/2⌋ := Int.floor_le_floor (by linarith)
  have h3 : ⌊(z : ℚ) + 1/2⌋ = z := by
    rw [Int.floor_int_add]
    norm_num
  rw [h3] at h2
  exact_mod_cast h2

lemma jround_le_ten {q : ℚ} (h : q ≤ 10) : jround q ≤ 10 := by
  have := jround_le_int (z := 10) (by exact_mod_cast h)
  exact_mod_cast this

lemma round1_nonneg {q : ℚ} (h : 0 ≤ q) : 0 ≤ round1 q := by
  unfold round1
  have := jround_nonneg (q := q * 10) (by linarith)
  linarith

lemma round1_le_ten {q : ℚ} (h : q ≤ 10) : round1 q ≤ 10 := by
  unfold round1
  have h2 : q * 10 ≤ ((100 : ℤ) : ℚ) := by push_cast; linarith
  have := jround_le_int h2
  push_cast at this
  linarith

lemma round1_range {q : ℚ} (h0 : 0 ≤ q) (h10 : q ≤ 10) :
    0 ≤ round1 q ∧ round1 q ≤ 10 :=
  ⟨round1_nonneg h0, round1_le_ten h10⟩

lemma round2_nonneg {q : ℚ} (h : 0 ≤ q) : 0 ≤ round2 q := by
  unfold round2
  have := jround_nonneg (q := q * 100) (by linarith)
  linarith

lemma round2_le_one {q : ℚ} (h : q ≤ 1) : round2 q ≤ 1 := by
  unfold round2
  have h2 : q * 100 ≤ ((100 : ℤ) : ℚ) := by push_cast; linarith
  have := jround_le_int h2
  push_cast at this
  linarith

lemma jsOr_nonneg {v : Option ℚ} {d : ℚ} (hv : ∀ x ∈ v, 0 ≤ x) (hd : 0 ≤ d) :
    0 ≤ jsOr v d := by
  unfold jsOr
  cases v with
  | none => exact hd
  | some x =>
    simp only
    split
    · exact hd
    · exact hv x rfl

/-! ## JS-number helper lemmas -/

@[simp] lemma addJ_num (a b : ℚ) : addJ (.num a) (.num b) = .num (a + b) := rfl

@[simp] lemma subJ_num (a b : ℚ) : subJ (.num a) (.num b) = .num (a - b) := rfl

@[simp] lemma mulJ_num (a b : ℚ) : mulJ (.num a) (.num b) = .num (a * b) := rfl

@[simp] lemma divJ_num (a b : ℚ) : divJ (.num a) (.num b) = .num (a / b) := rfl

@[simp] lemma jroundJ_num (q : ℚ) : jroundJ (.num q) = .num (jround q) := rfl

@[simp] lemma round1J_num (q : ℚ) : round1J (.num q) = .num (round1 q) := rfl

@[simp] lemma valJ_num (q : ℚ) : valJ (.num q) = q := rfl

@[simp] lemma maxJ_num (a b : ℚ) : maxJ (.num a) (.num b) = .num (max a b) := rfl

@[simp] lemma minJ_num (a b : ℚ) : minJ (.num a) (.num b) = .num (min a b) := rfl

lemma addJ_assoc (a b c : JSNum) : addJ (addJ a b) c = addJ a (addJ b c) := by
  cases a <;> cases b <;> cases c <;> simp [addJ] <;> ring

@[simp] lemma addJ_zero (a : JSNum) : addJ a (.num 0) = a := by
  cases a <;> simp [addJ]

@[simp] lemma zero_addJ (a : JSNum) : addJ (.num 0) a = a := by
  cases a <;> simp [addJ]

lemma foldl_addJ (l : List JSNum) : ∀ (a : JSNum),
    l.foldl addJ a = addJ a (jsum l) := by
  induction l with
  | nil => intro a; simp [jsum]
  | cons x xs ih =>
    intro a
    rw [List.foldl_cons, ih (addJ a x), addJ_assoc]
    have hx : jsum (x :: xs) = addJ x (jsum xs) := by
      show (x :: xs).foldl addJ (.num 0) = addJ x (jsum xs)
      rw [List.foldl_cons, zero_addJ]
      exact ih x
    rw [hx]

lemma jsum_cons (x : JSNum) (l : List JSNum) :
    jsum (x :: l) = addJ x (jsum l) := by
  show (x :: l).foldl addJ (.num 0) = addJ x (jsum l)
  rw [List.foldl_cons, zero_addJ]
  exact foldl_addJ l x

lemma foldl_addJ_num (l : List JSNum) (a : ℚ) (h : ∀ s ∈ l, s ≠ JSNum.nan) :
    l.foldl addJ (.num a) = .num (a + (l.map valJ).sum) := by
  induction l generalizing a with
  | nil => simp
  | cons x xs ih =>
    have hx := h x (List.mem_cons_self x xs)
    cases hs : x with
    | nan => exact absurd hs hx
    | num q =>
      rw [List.foldl_cons, addJ_num,
        ih (a + q) (fun s hss => h s (List.mem_cons_of_mem x hss))]
      simp only [List.map_cons, List.sum_cons, valJ_num, JSNum.num.injEq]
      ring

/-! ## List helper lemmas -/

lemma lookup_mem {α β : Type} [BEq α] [LawfulBEq α] {l : List (α × β)} {k : α}
    {v : β} (h : l.lookup k = some v) : (k, v) ∈ l := by
  induction l with
  | nil => simp [List.lookup] at h
  | cons x xs ih =>
    rcases x with ⟨k', v'⟩
    rw [List.lookup] at h
    by_cases hk : k == k'
    · simp [hk] at h
      subst h
      simp_all
    · simp [hk] at h
      exact List.mem_cons_of_mem _ (ih h)

lemma resolveWeight_pos {weights : List (String × ℚ)} {dflt : ℚ} {id : String}
    (hw : ∀ e ∈ weights, 0 ≤ e.2) (hd : 0 < dflt) :
    0 < ContentStructureRules.resolveWeight weights dflt id := by
  unfold ContentStructureRules.resolveWeight
  cases hl : weights.lookup id with
  | none => exact hd
  | some w =>
    simp only
    split
    · exact hd
    · rcases lt_or_eq_of_le (hw _ (lookup_mem hl)) with h | h
      · exact h
      · simp_all

lemma foldl_pair_sum {α : Type} (f g : α → ℚ) (l : List α) (a b : ℚ) :
    l.foldl (fun acc x => (acc.1 + f x * g x, acc.2 + g x)) (a, b)
      = (a + (l.map (fun x => f x * g x)).sum, b + (l.map g).sum) := by
  induction l generalizing a b with
  | nil => simp
  | cons x xs ih =>
    simp only [List.foldl_cons, List.map_cons, List.sum_cons, ih]
    rw [Prod.mk.injEq]
    constructor <;> ring

lemma sum_nonneg_list {l : List ℚ} (h : ∀ x ∈ l, 0 ≤ x) : 0 ≤ l.sum := by
  induction l with
  | nil => simp
  | cons x xs ih =>
    simp only [List.sum_cons]
    have := h x (by simp)
    have := ih (fun y hy => h y (by simp [hy]))
    linarith

lemma sum_pos_list {l : List ℚ} (h : ∀ x ∈ l, 0 < x) (hne : l ≠ []) :
    0 < l.sum := by
  cases l with
  | nil => simp at hne
  | cons x xs =>
    simp only [List.sum_cons]
    have h1 := h x (by simp)
    have h2 := sum_nonneg_list (l := xs) (fun y hy => le_of_lt (h y (by simp [hy])))
    linarith

lemma sum_le_sum_list {α : Type} {l : List α} {f g : α → ℚ}
    (h : ∀ x ∈ l, f x ≤ g x) : (l.map f).sum ≤ (l.map g).sum := by
  induction l with
  | nil => simp
  | cons x xs ih =>
    simp only [List.map_cons, List.sum_cons]
    have := h x (by simp)
    have := ih (fun y hy => h y (by simp [hy]))
    linarith

lemma sum_map_mul_left {α : Type} (c : ℚ) (f : α → ℚ) (l : List α) :
    (l.map (fun x => c * f x)).sum = c * (l.map f).sum := by
  induction l with
  | nil => simp
  | cons x xs ih =>
    simp only [List.map_cons, List.sum_cons, ih]
    ring

lemma sum_map_const_ten {α : Type} (l : List α) :
    (l.map (fun _ => (10 : ℚ))).sum = (l.length : ℚ) * 10 := by
  induction l with
  | nil => simp
  | cons x xs ih =>
    simp only [List.map_cons, List.sum_cons, List.length_cons, ih]
    push_cast
    ring

lemma mem_setAssoc {κ ν : Type} [DecidableEq κ] {l : List (κ × ν)} {k : κ}
    {v : ν} {e : κ × ν} (h : e ∈ setAssoc k v l) : e = (k, v) ∨ e ∈ l := by
  induction l with
  | nil => simp [setAssoc] at h; simp [h]
  | cons x xs ih =>
    rcases x with ⟨k', v'⟩
    rw [setAssoc] at h
    split at h
    · rcases List.mem_cons.mp h with h | h
      · exact Or.inl h
      · exact Or.inr (List.mem_cons_of_mem _ h)
    · rcases List.mem_cons.mp h with h | h
      · exact Or.inr (by simp [h])
      · rcases ih h with h | h
        · exact Or.inl h
        · exact Or.inr (List.mem_cons_of_mem _ h)

lemma mem_updateCat {l : Categories} {key : String}
    {f : CategoryResult → CategoryResult} {e : String × CategoryResult}
    (h : e ∈ Scorer.updateCat key f l) :
    ∃ x ∈ l, e = x ∨ e = (x.1, f x.2) := by
  unfold Scorer.updateCat at h
  rcases List.mem_map.mp h with ⟨x, hx, he⟩
  refine ⟨x, hx, ?_⟩
  split at he
  · exact Or.inr he.symm
  · exact Or.inl he.symm

/-! ## Range lemmas for the clamp shapes -/

lemma clamp_range (x : ℚ) : scoreInRange (max 0 (min 10 x)) :=
  ⟨le_max_left _ _, max_le (by norm_num) (min_le_left _ _)⟩

lemma max0_le_ten {x : ℚ} (hx : x ≤ 10) : scoreInRange (max 0 x) :=
  ⟨le_max_left _ _, max_le (by norm_num) hx⟩

lemma clamp_sub_range (x p : ℚ) (hp : 0 ≤ p) :
    scoreInRange (max 0 (max 0 (min 10 x) - p)) := by
  refine max0_le_ten ?_
  have h1 : max 0 (min 10 x) ≤ 10 := max_le (by norm_num) (min_le_left _ _)
  linarith

lemma jround_one_sub_div_le_ten {a b : ℚ} (ha : 0 ≤ a) (hb : 0 ≤ b) :
    jround ((1 - a / b) * 10) ≤ 10 := by
  apply jround_le_ten
  have h : 0 ≤ a / b := div_nonneg ha hb
  linarith

lemma avg2_range {a b : ℚ} (ha : scoreInRange a) (hb : scoreInRange b) :
    scoreInRange (jround ((a + b) / 2)) := by
  constructor
  · exact jround_nonneg (by rcases ha with ⟨h1, _⟩; rcases hb with ⟨h2, _⟩; linarith)
  · exact jround_le_ten (by rcases ha with ⟨_, h1⟩; rcases hb with ⟨_, h2⟩; linarith)

lemma round1_avg2_range {a b : ℚ} (ha : scoreInRange a) (hb : scoreInRange b) :
    scoreInRange (round1 ((a + b) / 2)) := by
  rcases ha with ⟨ha0, ha1⟩
  rcases hb with ⟨hb0, hb1⟩
  exact round1_range (by linarith) (by linarith)

/-- Wrap a rational range fact into the JS-number range predicate. -/
lemma rangeJ_of {q : ℚ} (h : scoreInRange q) : scoreInRangeJ (.num q) :=
  ⟨q, rfl, h.1, h.2⟩

lemma rangeJ_num {q : ℚ} (h0 : 0 ≤ q) (h1 : q ≤ 10) : scoreInRangeJ (.num q) :=
  ⟨q, rfl, h0, h1⟩

lemma rangeJ_ne_nan {s : JSNum} (h : scoreInRangeJ s) : s ≠ JSNum.nan := by
  obtain ⟨q, rfl, _, _⟩ := h
  simp

lemma rangeJ_val {s : JSNum} (h : scoreInRangeJ s) :
    s = .num (valJ s) ∧ scoreInRange (valJ s) := by
  obtain ⟨q, rfl, h0, h1⟩ := h
  exact ⟨rfl, h0, h1⟩

/-- Rounded mean of two in-range JS numbers (`Math.round((a + b) / 2)`). -/
lemma jravg2J_range {a b : JSNum} (ha : scoreInRangeJ a) (hb : scoreInRangeJ b) :
    scoreInRangeJ (jroundJ (divJ (addJ a b) (.num 2))) := by
  obtain ⟨qa, rfl, ha0, ha1⟩ := ha
  obtain ⟨qb, rfl, hb0, hb1⟩ := hb
  rw [addJ_num, divJ_num, jroundJ_num]
  exact rangeJ_of (avg2_range ⟨ha0, ha1⟩ ⟨hb0, hb1⟩)

/-- One-decimal mean of two in-range JS numbers
(`Math.round(((a + b) / 2) * 10) / 10`). -/
lemma round1avg2J_range {a b : JSNum} (ha : scoreInRangeJ a)
    (hb : scoreInRangeJ b) :
    scoreInRangeJ (round1J (divJ (addJ a b) (.num 2))) := by
  obtain ⟨qa, rfl, ha0, ha1⟩ := ha
  obtain ⟨qb, rfl, hb0, hb1⟩ := hb
  rw [addJ_num, divJ_num, round1J_num]
  exact rangeJ_of (round1_avg2_range ⟨ha0, ha1⟩ ⟨hb0, hb1⟩)

/-! ## Per-criterion range lemmas -/

lemma scoreParagraphBrevity_range (m : Metrics) (cfg : Config) :
    scoreInRangeJ (ContentStructureRules.scoreParagraphBrevity m cfg).score := by
  unfold ContentStructureRules.scoreParagraphBrevity
  split
  · exact rangeJ_num (by norm_num) (by norm_num)
  · exact rangeJ_of (clamp_range _)

lemma scoreListUsage_range (m : Metrics) (cfg : Config) :
    scoreInRangeJ (ContentStructureRules.scoreListUsage m cfg).score := by
  unfold ContentStructureRules.scoreListUsage
  split
  · exact rangeJ_num (by norm_num) (by norm_num)
  · refine rangeJ_of (clamp_sub_range _ _ ?_)
    split <;> norm_num

lemma scoreHeadingHierarchy_range (m : Metrics) :
    scoreInRangeJ (ContentStructureRules.scoreHeadingHierarchy m).score := by
  unfold ContentStructureRules.scoreHeadingHierarchy
  split
  · exact rangeJ_num (by norm_num) (by norm_num)
  · refine rangeJ_of (max0_le_ten ?_)
    refine le_trans (sub_le_self _ ?_) (le_trans (sub_le_self _ ?_)
      (le_trans (sub_le_self _ ?_) (le_trans (sub_le_self _ ?_)
        (le_trans (sub_le_self _ ?_) (sub_le_self _ ?_))))) <;>
      split <;> positivity

lemma scoreLinkIntegrity_range (m : Metrics)
    (hlk : m.links.total = 0 ∨ (m.links.brokenCount).isSome = true) :
    scoreInRangeJ (ContentStructureRules.scoreLinkIntegrity m).score := by
  unfold ContentStructureRules.scoreLinkIntegrity
  split
  · exact rangeJ_num (by norm_num) (by norm_num)
  · rename_i htot
    rcases hbc : m.links.brokenCount with _ | bc
    · rcases hlk with h | h
      · exact absurd h htot
      · rw [hbc] at h
        simp at h
    · simp only [hbc]
      exact rangeJ_of (clamp_range _)

lemma scoreTermConsistency_range (content : Content) :
    scoreInRangeJ (TerminologyRules.scoreTermConsistency content).score := by
  unfold TerminologyRules.scoreTermConsistency
  refine rangeJ_of (max0_le_ten ?_)
  refine le_trans (sub_le_self _ ?_) (le_trans (sub_le_self _ ?_) ?_)
  · positivity
  · positivity
  · split
    · exact jround_one_sub_div_le_ten (by positivity) (by positivity)
    · norm_num

lemma detectConfusableTerms_range (content : Content) :
    scoreInRangeJ (TerminologyRules.detectConfusableTerms content).score := by
  unfold TerminologyRules.detectConfusableTerms
  exact rangeJ_of (max0_le_ten (sub_le_self _ (by positivity)))

lemma scoreTextFirst_range (m : Metrics) (content : Content) :
    scoreInRangeJ (TextOverVisualsRules.scoreTextFirst m content).score := by
  unfold TextOverVisualsRules.scoreTextFirst
  split
  · exact rangeJ_num (by norm_num) (by norm_num)
  · refine rangeJ_of ⟨?_, ?_⟩ <;>
      · repeat' split
        all_goals norm_num [min_def]

lemma scoreImageR_range (m : Metrics) (hr : 0 ≤ m.content.visualToContentR) :
    scoreInRangeJ (TextOverVisualsRules.scoreImageR m).score := by
  unfold TextOverVisualsRules.scoreImageR
  split
  · exact rangeJ_num (by norm_num) (by norm_num)
  · refine rangeJ_of ?_
    split_ifs with h1 h2
    · have hd : m.content.visualToContentR / (33/100) ≤ 1 :=
        (div_le_one (by norm_num)).mpr h1
      have hd0 : 0 ≤ m.content.visualToContentR / (33/100) := by positivity
      have hj0 : 0 ≤ jround ((1 - m.content.visualToContentR / (33/100)) * 2) :=
        jround_nonneg (by linarith)
      have hj2 : jround ((1 - m.content.visualToContentR / (33/100)) * 2) ≤
          ((2 : ℤ) : ℚ) :=
        jround_le_int (by push_cast; linarith)
      push_cast at hj2
      exact ⟨by linarith, by linarith⟩
    · push_neg at h1
      have hx0 : 0 ≤ (1/2 - m.content.visualToContentR) / (17/100) * 2 := by
        have : 0 ≤ 1/2 - m.content.visualToContentR := by linarith
        positivity
      have hx2 : (1/2 - m.content.visualToContentR) / (17/100) * 2 ≤
          ((2 : ℤ) : ℚ) := by
        push_cast
        rw [div_mul_eq_mul_div, div_le_iff₀ (by norm_num : (0:ℚ) < 17/100)]
        linarith
      have hj0 := jround_nonneg hx0
      have hj2 := jround_le_int hx2
      push_cast at hj2
      exact ⟨by linarith, by linarith⟩
    · push_neg at h1 h2
      refine ⟨le_max_left _ _, max_le (by norm_num) ?_⟩
      have : jround ((1 - m.content.visualToContentR) * 8) ≤ ((4 : ℤ) : ℚ) :=
        jround_le_int (by push_cast; linarith)
      push_cast at this
      linarith

lemma scoreAltTextCoverage_range (m : Metrics)
    (h0 : 0 ≤ m.images.altTextCoverage) (h1 : m.images.altTextCoverage ≤ 1) :
    scoreInRangeJ (TextOverVisualsRules.scoreAltTextCoverage m).score := by
  unfold TextOverVisualsRules.scoreAltTextCoverage
  split
  · exact rangeJ_num (by norm_num) (by norm_num)
  · refine rangeJ_of ⟨?_, ?_⟩
    · exact jround_nonneg (by linarith)
    · exact jround_le_ten (by linarith)

/-! ## Category-level range lemmas -/

lemma wcs_foldl (weights : List (String × ℚ)) (dflt : ℚ)
    (criteria : List (String × CriterionResult)) (a b : ℚ)
    (hnum : ∀ e ∈ criteria, e.2.score ≠ JSNum.nan) :
    criteria.foldl (fun (acc : JSNum × ℚ) entry =>
      let w := ContentStructureRules.resolveWeight weights dflt entry.1
      (addJ acc.1 (mulJ entry.2.score (.num w)), acc.2 + w)) (.num a, b)
    = (.num (a + (criteria.map (fun e =>
          valJ e.2.score * ContentStructureRules.resolveWeight weights dflt e.1)).sum),
       b + (criteria.map (fun e =>
          ContentStructureRules.resolveWeight weights dflt e.1)).sum) := by
  induction criteria generalizing a b with
  | nil => simp
  | cons x xs ih =>
    have hx := hnum x (List.mem_cons_self x xs)
    cases hs : x.2.score with
    | nan => exact absurd hs hx
    | num q =>
      simp only [List.foldl_cons, List.map_cons, List.sum_cons, hs, mulJ_num,
        addJ_num, valJ_num]
      rw [ih _ _ (fun e he => hnum e (List.mem_cons_of_mem x he))]
      rw [Prod.mk.injEq, JSNum.num.injEq]
      constructor <;> ring

lemma weightedCategoryScore_range {weights : List (String × ℚ)} {dflt : ℚ}
    {criteria : List (String × CriterionResult)}
    (hw : ∀ e ∈ weights, 0 ≤ e.2) (hd : 0 < dflt)
    (hc : CriteriaOk criteria) (hne : criteria ≠ []) :
    scoreInRangeJ
      (ContentStructureRules.weightedCategoryScore weights dflt criteria) := by
  unfold ContentStructureRules.weightedCategoryScore
  have hval : ∀ e ∈ criteria, scoreInRange (valJ e.2.score) := fun e he =>
    (rangeJ_val (hc e he)).2
  rw [wcs_foldl _ _ _ _ _ (fun e he => rangeJ_ne_nan (hc e he))]
  simp only [zero_add, divJ_num, round1J_num]
  have htw : 0 < (criteria.map (fun e =>
      ContentStructureRules.resolveWeight weights dflt e.1)).sum := by
    apply sum_pos_list
    · intro x hx
      rcases List.mem_map.mp hx with ⟨e, _, rfl⟩
      exact resolveWeight_pos hw hd
    · simpa using hne
  have hws0 : 0 ≤ (criteria.map (fun e =>
      valJ e.2.score * ContentStructureRules.resolveWeight weights dflt e.1)).sum := by
    apply sum_nonneg_list
    intro x hx
    rcases List.mem_map.mp hx with ⟨e, he, rfl⟩
    exact mul_nonneg (hval e he).1 (le_of_lt (resolveWeight_pos hw hd))
  have hwsle : (criteria.map (fun e =>
      valJ e.2.score * ContentStructureRules.resolveWeight weights dflt e.1)).sum ≤
      10 * (criteria.map (fun e =>
        ContentStructureRules.resolveWeight weights dflt e.1)).sum := by
    rw [← sum_map_mul_left]
    apply sum_le_sum_list
    intro e he
    exact mul_le_mul_of_nonneg_right (hval e he).2
      (le_of_lt (resolveWeight_pos hw hd))
  refine rangeJ_of (round1_range ?_ ?_)
  · exact div_nonneg hws0 (le_of_lt htw)
  · rw [div_le_iff₀ htw]
    linarith

lemma averageScores_range {criteria : List (String × CriterionResult)}
    (hc : CriteriaOk criteria) : scoreInRangeJ (Scorer.averageScores criteria) := by
  unfold Scorer.averageScores
  split
  · exact rangeJ_num (le_refl 0) (by norm_num)
  · rename_i hne
    have hval : ∀ e ∈ criteria, scoreInRange (valJ e.2.score) := fun e he =>
      (rangeJ_val (hc e he)).2
    have hsum : jsum (criteria.map (fun c => c.2.score)) =
        .num ((criteria.map (fun c => valJ c.2.score)).sum) := by
      show (criteria.map (fun c => c.2.score)).foldl addJ (.num 0) = _
      rw [foldl_addJ_num _ 0 (by
        intro s hs
        rcases List.mem_map.mp hs with ⟨e, he, rfl⟩
        exact rangeJ_ne_nan (hc e he)), zero_add, List.map_map]
      rfl
    show scoreInRangeJ (round1J (divJ (jsum (criteria.map (fun c => c.2.score)))
      (.num (((criteria.map (fun c => c.2.score)).length : ℚ)))))
    rw [hsum, divJ_num, round1J_num]
    have hlen : 0 < ((criteria.map (fun c => c.2.score)).length : ℚ) := by
      have : (criteria.map (fun c => c.2.score)).length ≠ 0 := hne
      exact_mod_cast Nat.pos_of_ne_zero this
    have h0 : 0 ≤ (criteria.map (fun c => valJ c.2.score)).sum := by
      apply sum_nonneg_list
      intro x hx
      rcases List.mem_map.mp hx with ⟨e, he, rfl⟩
      exact (hval e he).1
    have h10 : (criteria.map (fun c => valJ c.2.score)).sum ≤
        ((criteria.map (fun c => c.2.score)).length : ℚ) * 10 := by
      have := sum_le_sum_list (l := criteria) (f := fun c => valJ c.2.score)
        (g := fun _ => (10 : ℚ)) (fun e he => (hval e he).2)
      rw [sum_map_const_ten] at this
      simpa [List.length_map] using this
    refine rangeJ_of (round1_range ?_ ?_)
    · exact div_nonneg h0 (le_of_lt hlen)
    · rw [div_le_iff₀ hlen]
      linarith

/-! ## The composite-score fold characterization -/

lemma composite_foldl (categories : Categories) (a : JSNum) (b : ℚ) :
    categories.foldl (fun (acc : JSNum × ℚ) entry =>
      match entry.2.score, entry.2.estimated with
      | some s, false =>
        let weight := Scorer.categoryWeight entry.1 entry.2
        (addJ acc.1 (mulJ s (.num weight)), acc.2 + weight)
      | _, _ => acc) (a, b)
    = (addJ a (jsum
        ((categories.filter (fun e => e.2.score.isSome && !e.2.estimated)).map
          (fun e => mulJ (e.2.score.getD (.num 0))
            (.num (Scorer.categoryWeight e.1 e.2))))),
       b + ((categories.filter (fun e => e.2.score.isSome && !e.2.estimated)).map
          (fun e => Scorer.categoryWeight e.1 e.2)).sum) := by
  induction categories generalizing a b with
  | nil => simp [jsum]
  | cons x xs ih =>
    rcases hs : x.2.score with _ | s <;> rcases hest : x.2.estimated with _ | _ <;>
      simp [List.foldl_cons, List.filter_cons, hs, hest, ih, List.map_cons,
        jsum_cons, addJ_assoc] <;>
      (try rw [Prod.mk.injEq]) <;> (try constructor) <;> try ring

lemma calculateCompositeScore_eq_spec (categories : Categories) :
    Scorer.calculateCompositeScore categories = compositeSpec categories := by
  unfold Scorer.calculateCompositeScore compositeSpec
  rw [composite_foldl]
  simp

/-! ## Wellformedness of the computed metrics -/

lemma computeMetrics_visual_nonneg (content : Content) :
    0 ≤ (Parser.computeMetrics content).content.visualToContentR := by
  apply round2_nonneg
  split
  · positivity
  · norm_num

lemma computeMetrics_altCov_range (content : Content) :
    0 ≤ (Parser.computeMetrics content).images.altTextCoverage ∧
      (Parser.computeMetrics content).images.altTextCoverage ≤ 1 := by
  constructor
  · apply round2_nonneg
    split
    · positivity
    · norm_num
  · apply round2_le_one
    split
    · rename_i h
      rw [div_le_one (by exact_mod_cast Nat.pos_of_ne_zero h)]
      exact_mod_cast List.length_filter_le _ _
    · norm_num

/-! ## CategoriesOk preservation lemmas -/

lemma setAssoc_ok {l : Categories} {k : String} {v : CategoryResult}
    (h : CategoriesOk l) (hv : CategoryOk v) : CategoriesOk (setAssoc k v l) := by
  intro e he
  rcases mem_setAssoc he with rfl | he'
  · exact hv
  · exact h e he'

lemma updateCat_ok {l : Categories} {key : String}
    {f : CategoryResult → CategoryResult} (h : CategoriesOk l)
    (hf : ∀ c, CategoryOk c → CategoryOk (f c)) :
    CategoriesOk (Scorer.updateCat key f l) := by
  intro e he
  rcases mem_updateCat he with ⟨x, hx, h1 | h1⟩
  · rw [h1]
    exact h x hx
  · rw [h1]
    exact hf _ (h x hx)

lemma claudeCategory_aux (scores : List (String × CriterionResult))
    (ids : List String) (acc : List (String × CriterionResult) × List Issue) :
    ∀ e ∈ (ids.foldl (fun acc id =>
      match scores.lookup id with
      | some c => (acc.1 ++ [(id, c)], acc.2 ++ c.issues)
      | none => acc) acc).1, e ∈ acc.1 ∨ e ∈ scores := by
  induction ids generalizing acc with
  | nil => exact fun e he => Or.inl he
  | cons id rest ih =>
    intro e he
    simp only [List.foldl_cons] at he
    rcases hl : scores.lookup id with _ | c
    · rw [hl] at he
      exact ih acc e he
    · rw [hl] at he
      rcases ih _ e he with h | h
      · rcases List.mem_append.mp h with h | h
        · exact Or.inl h
        · rcases List.mem_singleton.mp h with rfl
          exact Or.inr (lookup_mem hl)
      · exact Or.inr h

lemma claudeCategory_mem {scores : List (String × CriterionResult)}
    {ids : List String} {e : String × CriterionResult}
    (h : e ∈ (Scorer.claudeCategory scores ids).1) : e ∈ scores := by
  rcases claudeCategory_aux scores ids ([], []) e h with h | h
  · simp at h
  · exact h

lemma claudeCategory_criteriaOk {t : TransformedScores} {ids : List String}
    (ht : TransformedOk t) :
    CriteriaOk (Scorer.claudeCategory t.scores ids).1 := by
  intro e he
  exact ht e (claudeCategory_mem he)

lemma addClaudeScores_ok {cats : Categories} {t : TransformedScores}
    (hcats : CategoriesOk cats) (ht : TransformedOk t) :
    CategoriesOk (Scorer.addClaudeScores cats t) := by
  have hor : CriteriaOk (Scorer.claudeCategory t.scores
      ["OR-01", "OR-02", "OR-03", "OR-04"]).1 := claudeCategory_criteriaOk ht
  have hsc : CriteriaOk (Scorer.claudeCategory t.scores ["GAP-03", "GAP-04"]).1 :=
    claudeCategory_criteriaOk ht
  have hpp : CriteriaOk (Scorer.claudeCategory t.scores
      ["PP-01", "PP-02", "PP-03", "PP-04"]).1 := claudeCategory_criteriaOk ht
  have hcore : CategoriesOk (setAssoc ("permissions-plans")
      ({ id := "CAT-04"
         name := "Permissions & Plans"
         score := some (Scorer.averageScores (Scorer.claudeCategory t.scores
           ["PP-01", "PP-02", "PP-03", "PP-04"]).1)
         weight := Scorer.CATEGORY_WEIGHTS.lookup ("permissions-plans")
         criteria := (Scorer.claudeCategory t.scores
           ["PP-01", "PP-02", "PP-03", "PP-04"]).1
         issues := (Scorer.claudeCategory t.scores
           ["PP-01", "PP-02", "PP-03", "PP-04"]).2 } : CategoryResult)
      (setAssoc ("self-contained")
        ({ id := "CAT-09"
           name := "Self-Contained Context"
           score := some (Scorer.averageScores (Scorer.claudeCategory t.scores
             ["GAP-03", "GAP-04"]).1)
           weight := Scorer.CATEGORY_WEIGHTS.lookup ("self-contained")
           criteria := (Scorer.claudeCategory t.scores ["GAP-03", "GAP-04"]).1
           issues := (Scorer.claudeCategory t.scores ["GAP-03", "GAP-04"]).2 } :
          CategoryResult)
        (setAssoc ("outcomes-reversibility")
          ({ id := "CAT-03"
             name := "Outcomes & Reversibility"
             score := some (Scorer.averageScores (Scorer.claudeCategory t.scores
               ["OR-01", "OR-02", "OR-03", "OR-04"]).1)
             weight := Scorer.CATEGORY_WEIGHTS.lookup ("outcomes-reversibility")
             criteria := (Scorer.claudeCategory t.scores
               ["OR-01", "OR-02", "OR-03", "OR-04"]).1
             issues := (Scorer.claudeCategory t.scores
               ["OR-01", "OR-02", "OR-03", "OR-04"]).2 } : CategoryResult)
          cats))) := by
    refine setAssoc_ok (setAssoc_ok (setAssoc_ok hcats ?_) ?_) ?_
    · refine ⟨?_, hor⟩
      intro s hs
      simp only [Option.mem_def, Option.some.injEq] at hs
      exact hs ▸ averageScores_range hor
    · refine ⟨?_, hsc⟩
      intro s hs
      simp only [Option.mem_def, Option.some.injEq] at hs
      exact hs ▸ averageScores_range hsc
    · refine ⟨?_, hpp⟩
      intro s hs
      simp only [Option.mem_def, Option.some.injEq] at hs
      exact hs ▸ averageScores_range hpp
  have haddOne : ∀ (key : String) (c : CriterionResult), scoreInRangeJ c.score →
      ∀ cat, CategoryOk cat → CategoryOk
        { cat with criteria := setAssoc key c cat.criteria
                   issues := cat.issues ++ c.issues } := by
    intro key c hc cat hcat
    refine ⟨hcat.1, ?_⟩
    intro e he
    rcases mem_setAssoc he with rfl | he'
    · exact hc
    · exact hcat.2 e he'
  have hfinal : ∀ cat : CategoryResult, CategoryOk cat → CategoryOk
      { cat with score := some (Scorer.averageScores cat.criteria) } := by
    intro cat hcat
    refine ⟨?_, hcat.2⟩
    intro s hs
    rw [Option.mem_def, Option.some_inj] at hs
    exact hs ▸ averageScores_range hcat.2
  unfold Scorer.addClaudeScores
  refine updateCat_ok ?_ hfinal
  split
  · rename_i c hc
    refine updateCat_ok ?_ ?_
    · split
      · rename_i c5 hc5
        refine updateCat_ok ?_ (haddOne _ _ (ht _ (lookup_mem hc5)))
        split
        · rename_i c3 hc3
          exact updateCat_ok hcore (haddOne _ _ (ht _ (lookup_mem hc3)))
        · exact hcore
      · split
        · rename_i c3 hc3
          exact updateCat_ok hcore (haddOne _ _ (ht _ (lookup_mem hc3)))
        · exact hcore
    · intro cat hcat
      split
      · rename_i existing hex
        refine ⟨hcat.1, ?_⟩
        intro e he
        rcases mem_setAssoc he with rfl | he'
        · exact jravg2J_range (hcat.2 _ (lookup_mem hex)) (ht _ (lookup_mem hc))
        · exact hcat.2 e he'
      · exact hcat
  · split
    · rename_i c5 hc5
      refine updateCat_ok ?_ (haddOne _ _ (ht _ (lookup_mem hc5)))
      split
      · rename_i c3 hc3
        exact updateCat_ok hcore (haddOne _ _ (ht _ (lookup_mem hc3)))
      · exact hcore
    · split
      · rename_i c3 hc3
        exact updateCat_ok hcore (haddOne _ _ (ht _ (lookup_mem hc3)))
      · exact hcore

lemma addEstimatedScores_ok {cats : Categories} {content : Content}
    {metrics : Metrics} (hcats : CategoriesOk cats) :
    CategoriesOk (Scorer.addEstimatedScores cats content metrics) := by
  unfold Scorer.addEstimatedScores
  refine setAssoc_ok (setAssoc_ok (setAssoc_ok hcats ?_) ?_) ?_ <;>
    · constructor
      · intro s hs
        simp only [Option.mem_def, Option.some.injEq] at hs
        exact hs ▸ rangeJ_of (clamp_range _)
      · intro e he
        simp only [List.mem_singleton] at he
        rw [he]
        exact rangeJ_of (clamp_range _)

lemma mean_range {α : Type} (f : α → ℚ) (l : List α)
    (h : ∀ x ∈ l, scoreInRange (f x)) (hne : l ≠ []) :
    scoreInRange (round1 ((l.map f).sum / (l.length : ℚ))) := by
  have hlen : 0 < (l.length : ℚ) := by
    have h2 : l.length ≠ 0 := fun hh => hne (List.eq_nil_of_length_eq_zero hh)
    exact_mod_cast Nat.pos_of_ne_zero h2
  have h0 : 0 ≤ (l.map f).sum := by
    apply sum_nonneg_list
    intro x hx
    rcases List.mem_map.mp hx with ⟨a, ha, rfl⟩
    exact (h a ha).1
  have h10 : (l.map f).sum ≤ (l.length : ℚ) * 10 := by
    have h1 : (l.map f).sum ≤ (l.map (fun _ => (10 : ℚ))).sum :=
      sum_le_sum_list (fun x hx => (h x hx).2)
    rw [sum_map_const_ten] at h1
    linarith
  refine round1_range ?_ ?_
  · exact div_nonneg h0 (le_of_lt hlen)
  · rw [div_le_iff₀ hlen]
    linarith

/-- Rounded mean of a nonempty list of in-range JS numbers. -/
lemma meanJ_range {l : List JSNum} (h : ∀ s ∈ l, scoreInRangeJ s)
    (hne : l ≠ []) :
    scoreInRangeJ (round1J (divJ (jsum l) (.num ((l.length : ℚ))))) := by
  have hnum : ∀ s ∈ l, s ≠ JSNum.nan := fun s hs => rangeJ_ne_nan (h s hs)
  have hsum : jsum l = .num ((l.map valJ).sum) := by
    show l.foldl addJ (.num 0) = _
    rw [foldl_addJ_num l 0 hnum, zero_add]
  rw [hsum, divJ_num, round1J_num]
  exact rangeJ_of (mean_range valJ l (fun s hs => (rangeJ_val (h s hs)).2) hne)

lemma addSectionScores_ok {cats : Categories} {content : Content} {cfg : Config}
    (hcats : CategoriesOk cats) :
    CategoriesOk (Scorer.addSectionScores cats content cfg).1 := by
  unfold Scorer.addSectionScores
  split
  · exact hcats
  · rename_i hne
    have hrollup : scoreInRangeJ (Scorer.sectionRollupOf cfg content.sections) := by
      unfold Scorer.sectionRollupOf
      have hlen : ((content.sections.map (Scorer.sectionScoreOf cfg)).length : ℚ) =
          (((content.sections.map (Scorer.sectionScoreOf cfg)).map
            (fun (s : SectionScore) => s.score)).length : ℚ) := by
        simp [List.length_map]
      rw [hlen]
      apply meanJ_range
      · intro s hs
        rcases List.mem_map.mp hs with ⟨sscore, hss, rfl⟩
        rcases List.mem_map.mp hss with ⟨sec, _, rfl⟩
        exact round1avg2J_range (scoreParagraphBrevity_range _ _)
          (scoreListUsage_range _ _)
      · intro hemp
        have h3 := List.map_eq_nil_iff.mp hemp
        have h4 := List.map_eq_nil_iff.mp h3
        simp [h4] at hne
    show CategoriesOk (Scorer.updateCat ("content-structure") (fun cat =>
      { cat with
        sectionScores := content.sections.map (Scorer.sectionScoreOf cfg)
        sectionRollup := some (Scorer.sectionRollupOf cfg content.sections)
        score := some (round1J (divJ
          (addJ (cat.score.getD (.num 0))
            (Scorer.sectionRollupOf cfg content.sections)) (.num 2))) })
      cats)
    refine updateCat_ok hcats ?_
    intro c hc
    refine ⟨?_, hc.2⟩
    intro s hs
    simp only [Option.mem_def, Option.some.injEq] at hs
    subst hs
    refine round1avg2J_range ?_ hrollup
    rcases hco : c.score with _ | s0
    · exact rangeJ_num (le_refl 0) (by norm_num)
    · have h4 := hc.1 s0 (by rw [hco]; rfl)
      simpa using h4

/-! ## Range of the three rule modules and of the base category map -/

lemma contentStructureRules_ok (m : Metrics) (cfg : Config) (hcfg : cfg.Nonneg)
    (hlk : m.links.total = 0 ∨ (m.links.brokenCount).isSome = true) :
    scoreInRangeJ (ContentStructureRules.scoreAll m cfg).categoryScore ∧
      CriteriaOk (ContentStructureRules.scoreAll m cfg).criteria := by
  have hcrit : CriteriaOk
      [("CS-01", ContentStructureRules.scoreParagraphBrevity m cfg),
       ("CS-02", ContentStructureRules.scoreListUsage m cfg),
       ("CS-04", ContentStructureRules.scoreHeadingHierarchy m),
       ("CS-07", ContentStructureRules.scoreLinkIntegrity m)] := by
    intro e he
    simp only [List.mem_cons, List.not_mem_nil, or_false] at he
    rcases he with rfl | rfl | rfl | rfl
    · exact scoreParagraphBrevity_range m cfg
    · exact scoreListUsage_range m cfg
    · exact scoreHeadingHierarchy_range m
    · exact scoreLinkIntegrity_range m hlk
  have hw : ∀ e ∈ [("CS-01", jsOr cfg.cs01.weight (35/100)),
      ("CS-02", jsOr cfg.cs02.weight (30/100)),
      ("CS-04", jsOr cfg.cs04.weight (35/100)),
      ("CS-07", jsOr cfg.cs07.weight (10/100))], 0 ≤ e.2 := by
    intro e he
    simp only [List.mem_cons, List.not_mem_nil, or_false] at he
    rcases he with rfl | rfl | rfl | rfl
    · exact jsOr_nonneg hcfg.1.1 (by norm_num)
    · exact jsOr_nonneg hcfg.2.1.1 (by norm_num)
    · exact jsOr_nonneg hcfg.2.2.1.1 (by norm_num)
    · exact jsOr_nonneg hcfg.2.2.2.1.1 (by norm_num)
  exact ⟨weightedCategoryScore_range hw (by norm_num) hcrit (by simp), hcrit⟩

lemma terminologyRules_ok (content : Content) (cfg : Config) (hcfg : cfg.Nonneg) :
    scoreInRangeJ (TerminologyRules.scoreAll content cfg).categoryScore ∧
      CriteriaOk (TerminologyRules.scoreAll content cfg).criteria := by
  have hcrit : CriteriaOk
      [("AV-01", TerminologyRules.scoreTermConsistency content),
       ("AV-02", TerminologyRules.detectConfusableTerms content)] := by
    intro e he
    simp only [List.mem_cons, List.not_mem_nil, or_false] at he
    rcases he with rfl | rfl
    · exact scoreTermConsistency_range content
    · exact detectConfusableTerms_range content
  have hw : ∀ e ∈ [("AV-01", jsOr cfg.av01.weight (6/10)),
      ("AV-02", jsOr cfg.av02.weight (4/10))], 0 ≤ e.2 := by
    intro e he
    simp only [List.mem_cons, List.not_mem_nil, or_false] at he
    rcases he with rfl | rfl
    · exact jsOr_nonneg hcfg.2.2.2.2.1.1 (by norm_num)
    · exact jsOr_nonneg hcfg.2.2.2.2.2.1.1 (by norm_num)
  exact ⟨weightedCategoryScore_range hw (by norm_num) hcrit (by simp), hcrit⟩

lemma textOverVisualsRules_ok (m : Metrics) (content : Content) (cfg : Config)
    (hcfg : cfg.Nonneg) (hr : 0 ≤ m.content.visualToContentR)
    (ha0 : 0 ≤ m.images.altTextCoverage) (ha1 : m.images.altTextCoverage ≤ 1) :
    scoreInRangeJ (TextOverVisualsRules.scoreAll m content cfg).categoryScore ∧
      CriteriaOk (TextOverVisualsRules.scoreAll m content cfg).criteria := by
  have hcrit : CriteriaOk
      [("TB-01", TextOverVisualsRules.scoreTextFirst m content),
       ("TB-02", TextOverVisualsRules.scoreImageR m),
       ("TB-03", TextOverVisualsRules.scoreAltTextCoverage m)] := by
    intro e he
    simp only [List.mem_cons, List.not_mem_nil, or_false] at he
    rcases he with rfl | rfl | rfl
    · exact scoreTextFirst_range m content
    · exact scoreImageR_range m hr
    · exact scoreAltTextCoverage_range m ha0 ha1
  have hw : ∀ e ∈ [("TB-01", jsOr cfg.tb01.weight (35/100)),
      ("TB-02", jsOr cfg.tb02.weight (35/100)),
      ("TB-03", jsOr cfg.tb03.weight (30/100))], 0 ≤ e.2 := by
    intro e he
    simp only [List.mem_cons, List.not_mem_nil, or_false] at he
    rcases he with rfl | rfl | rfl
    · exact jsOr_nonneg hcfg.2.2.2.2.2.2.1.1 (by norm_num)
    · exact jsOr_nonneg hcfg.2.2.2.2.2.2.2.1.1 (by norm_num)
    · exact jsOr_nonneg hcfg.2.2.2.2.2.2.2.2.1 (by norm_num)
  exact ⟨weightedCategoryScore_range hw (by norm_num) hcrit (by simp), hcrit⟩

lemma baseCategories_ok (m : Metrics) (content : Content) (cfg : Config)
    (hcfg : cfg.Nonneg) (hr : 0 ≤ m.content.visualToContentR)
    (ha0 : 0 ≤ m.images.altTextCoverage) (ha1 : m.images.altTextCoverage ≤ 1)
    (hlk : m.links.total = 0 ∨ (m.links.brokenCount).isSome = true) :
    CategoriesOk (Scorer.baseCategoriesOf content m cfg) := by
  intro e he
  unfold Scorer.baseCategoriesOf at he
  simp only [List.mem_cons, List.not_mem_nil, or_false] at he
  rcases he with rfl | rfl | rfl
  · refine ⟨?_, (contentStructureRules_ok m cfg hcfg hlk).2⟩
    intro s hs
    simp only [Option.mem_def, Option.some.injEq] at hs
    exact hs ▸ (contentStructureRules_ok m cfg hcfg hlk).1
  · refine ⟨?_, (terminologyRules_ok content cfg hcfg).2⟩
    intro s hs
    simp only [Option.mem_def, Option.some.injEq] at hs
    exact hs ▸ (terminologyRules_ok content cfg hcfg).1
  · refine ⟨?_, (textOverVisualsRules_ok m content cfg hcfg hr ha0 ha1).2⟩
    intro s hs
    simp only [Option.mem_def, Option.some.injEq] at hs
    exact hs ▸ (textOverVisualsRules_ok m content cfg hcfg hr ha0 ha1).1

lemma transformScores_ok {raw : ClaudeRaw} (h : RawOk raw) :
    TransformedOk (transformScores raw) := by
  intro e he
  unfold transformScores at he
  rcases List.mem_map.mp he with ⟨x, hx, rfl⟩
  exact rangeJ_of (h x hx)

/-! ## Lookup lemmas over the category map -/

lemma lookup_setAssoc_self {ν : Type} (l : List (String × ν)) (k : String) (v : ν) :
    (setAssoc k v l).lookup k = some v := by
  induction l with
  | nil => simp [setAssoc, List.lookup]
  | cons x xs ih =>
    rcases x with ⟨k', v'⟩
    rw [setAssoc]
    split
    · simp [List.lookup]
    · rename_i hne
      rw [List.lookup]
      have : (k == k') = false := by
        rw [beq_eq_false_iff_ne]
        exact fun hk => hne hk.symm
      rw [this]
      exact ih

lemma lookup_setAssoc_ne {ν : Type} {l : List (String × ν)} {k k' : String}
    (v : ν) (h : k' ≠ k) : (setAssoc k v l).lookup k' = l.lookup k' := by
  induction l with
  | nil => simp [setAssoc, List.lookup, beq_eq_false_iff_ne.mpr h]
  | cons x xs ih =>
    rcases x with ⟨k0, v0⟩
    rw [setAssoc]
    split
    · rename_i heq
      subst heq
      simp [List.lookup, beq_eq_false_iff_ne.mpr h]
    · simp only [List.lookup]
      by_cases hk : k' = k0
      · simp [beq_iff_eq.mpr hk]
      · simp [beq_eq_false_iff_ne.mpr hk, ih]

lemma lookup_updateCat_ne {l : Categories} {key k : String}
    (f : CategoryResult → CategoryResult) (h : k ≠ key) :
    (Scorer.updateCat key f l).lookup k = l.lookup k := by
  induction l with
  | nil => rfl
  | cons x xs ih =>
    rcases x with ⟨k0, v0⟩
    unfold Scorer.updateCat
    simp only [List.map_cons]
    have hx : Scorer.updateCat key f xs = xs.map
        (fun entry => if entry.1 = key then (entry.1, f entry.2) else entry) := rfl
    split
    · rename_i hk0
      have hk0' : k0 = key := hk0
      subst hk0'
      simp [List.lookup, beq_eq_false_iff_ne.mpr h, ← hx, ih]
    · simp only [List.lookup]
      by_cases hk : k = k0
      · simp [beq_iff_eq.mpr hk]
      · simp [beq_eq_false_iff_ne.mpr hk, ← hx, ih]

lemma addSectionScores_lookup_ne {cats : Categories} {content : Content}
    {cfg : Config} {k : String} (h : k ≠ "content-structure") :
    (Scorer.addSectionScores cats content cfg).1.lookup k = cats.lookup k := by
  unfold Scorer.addSectionScores
  split
  · rfl
  · dsimp only
    exact lookup_updateCat_ne _ h

/-- The outcomes-reversibility category after `addClaudeScores`, in closed
form. -/
lemma addClaudeScores_lookup_or (cats : Categories) (t : TransformedScores) :
    (Scorer.addClaudeScores cats t).lookup ("outcomes-reversibility") =
      some
        { id := "CAT-03"
          name := "Outcomes & Reversibility"
          score := some (Scorer.averageScores (Scorer.claudeCategory t.scores
            ["OR-01", "OR-02", "OR-03", "OR-04"]).1)
          weight := Scorer.CATEGORY_WEIGHTS.lookup ("outcomes-reversibility")
          criteria := (Scorer.claudeCategory t.scores
            ["OR-01", "OR-02", "OR-03", "OR-04"]).1
          issues := (Scorer.claudeCategory t.scores
            ["OR-01", "OR-02", "OR-03", "OR-04"]).2 } := by
  unfold Scorer.addClaudeScores
  rw [lookup_updateCat_ne _ (by decide)]
  split <;> (try rw [lookup_updateCat_ne _ (by decide)]) <;>
    split <;> (try rw [lookup_updateCat_ne _ (by decide)]) <;>
    split <;> (try rw [lookup_updateCat_ne _ (by decide)]) <;>
    rw [lookup_setAssoc_ne _ (by decide), lookup_setAssoc_ne _ (by decide),
      lookup_setAssoc_self]

/-- Step-2 categories on the successful semantic path. -/
lemma scoreAll_cats_okPath (content : Content) (metrics : Metrics) (cfg : Config)
    (key : String) (raw : ClaudeRaw) (now : String) :
    (Scorer.scoreAll content metrics cfg (some key) none (Except.ok raw)
      now).categories =
    (Scorer.addSectionScores
      (Scorer.addClaudeScores (Scorer.baseCategoriesOf content metrics cfg)
        (transformScores raw)) content cfg).1 := rfl

/-- Step-2 categories on the failed semantic path. -/
lemma scoreAll_cats_errPath (content : Content) (metrics : Metrics) (cfg : Config)
    (key : String) (msg : String) (now : String) :
    (Scorer.scoreAll content metrics cfg (some key) none (Except.error msg)
      now).categories =
    (Scorer.addSectionScores
      (Scorer.addEstimatedScores (Scorer.baseCategoriesOf content metrics cfg)
        content metrics) content cfg).1 := rfl

/-- Step-2 categories on the rule-only path (no credential). -/
lemma scoreAll_cats_nonePath (content : Content) (metrics : Metrics) (cfg : Config)
    (cache : Option CacheEntry) (claude : Except String ClaudeRaw) (now : String) :
    (Scorer.scoreAll content metrics cfg none cache claude now).categories =
    (Scorer.addSectionScores
      (Scorer.addEstimatedScores (Scorer.baseCategoriesOf content metrics cfg)
        content metrics) content cfg).1 := rfl

/-! ## Exact-value helpers for rounded integers -/

lemma jround_int (z : ℤ) : jround ((z : ℚ)) = (z : ℚ) := by
  unfold jround
  rw [Int.floor_int_add]
  norm_num

lemma round1_intCast (z : ℤ) : round1 ((z : ℚ)) = (z : ℚ) := by
  unfold round1
  rw [show ((z : ℚ) * 10) = (((z * 10 : ℤ) : ℚ)) by push_cast; ring, jround_int]
  push_cast
  ring

/-- C2 (counterexample): the claim that every criterion and category score of
every generated report lies in [0, 10] is false on the code in two ways:
(a) `transformScores` passes the external score through without clamping, so
a semantic response scoring OR-01 at 15 yields a report whose
outcomes-reversibility category score is 15 > 10; (b) src/js/parser.js never
sets `links.brokenCount`, so on a page with one link the rule-only report's
CS-07 criterion score is `undefined / 1 = NaN`, not a number in [0, 10]. -/
theorem C2_clamping_counterexample :
    (((Scorer.scoreAll emptyContent (Parser.computeMetrics emptyContent) {}
        (some ("k")) none (Except.ok oversizedRaw) "").categories.lookup
      ("outcomes-reversibility")).map (fun c => c.score) =
        some (some (.num 15)) ∧
      ¬ ((15 : ℚ) ≤ 10)) ∧
    ((∃ cat r,
      (Scorer.scoreAll linkedContent (Parser.computeMetrics linkedContent) {}
          none none (Except.error ("e")) "").categories.lookup
        ("content-structure") = some cat ∧
      cat.criteria.lookup ("CS-07") = some r ∧
      r.score = JSNum.nan ∧ cat.score = some JSNum.nan) ∧
      ¬ scoreInRangeJ JSNum.nan) := by
  refine ⟨⟨?_, by norm_num⟩, ⟨_, _, rfl, rfl, rfl, rfl⟩, ?_⟩
  · rw [scoreAll_cats_okPath, addSectionScores_lookup_ne (by decide),
      addClaudeScores_lookup_or]
    have h1 : (Scorer.claudeCategory (transformScores oversizedRaw).scores
        ["OR-01", "OR-02", "OR-03", "OR-04"]).1 =
        [("OR-01",
          { criterionId := "OR-01", score := .num 15, issues := []
            details := "e" })] := rfl
    rw [h1]
    have h15 : round1 ((15 : ℚ)) = 15 := by
      rw [show ((15 : ℚ)) = (((15 : ℤ) : ℚ)) by norm_num, round1_intCast]
    have h2 : Scorer.averageScores
        [("OR-01",
          ({ criterionId := "OR-01", score := .num 15, issues := []
             details := "e" } : CriterionResult))] = .num 15 := by
      unfold Scorer.averageScores
      simp [jsum, h15]
    rw [h2]
    rfl
  · intro hcontra
    obtain ⟨q, hq, _, _⟩ := hcontra
    exact JSNum.noConfusion hq

/-- C2 (amended): for every report generated by `scoreAll` on parsed metrics,
with a nonnegative configuration, every criterion score and every category
score is a real number in [0, 10], provided (i) on the semantic path the
external response's scores (or the cached transformed scores) themselves lie
in [0, 10] — `transformScores` carries them through unclamped — and (ii) the
page has no links: src/js/parser.js never sets `links.brokenCount`, so on any
page with at least one link CS-07 computes `undefined / total = NaN`. -/
theorem C2_clamping_amended (content : Content) (cfg : Config)
    (apiKey : Option String) (cache : Option CacheEntry)
    (claude : Except String ClaudeRaw) (now : String)
    (hcfg : cfg.Nonneg)
    (hlinks : content.structure'.links = [])
    (hcache : ∀ entry ∈ cache, TransformedOk entry.transformed)
    (hclaude : ∀ raw, claude = Except.ok raw → RawOk raw) :
    CategoriesOk (Scorer.scoreAll content (Parser.computeMetrics content) cfg
      apiKey cache claude now).categories := by
  have hlk : (Parser.computeMetrics content).links.total = 0 ∨
      ((Parser.computeMetrics content).links.brokenCount).isSome = true := by
    left
    show content.structure'.links.length = 0
    rw [hlinks]
    rfl
  have hbase := baseCategories_ok (Parser.computeMetrics content) content cfg hcfg
    (computeMetrics_visual_nonneg content)
    (computeMetrics_altCov_range content).1
    (computeMetrics_altCov_range content).2
    hlk
  rcases apiKey with _ | key
  · exact addSectionScores_ok (addEstimatedScores_ok hbase)
  · rcases cache with _ | entry
    · rcases claude with err | raw
      · exact addSectionScores_ok (addEstimatedScores_ok hbase)
      · exact addSectionScores_ok
          (addClaudeScores_ok hbase (transformScores_ok (hclaude raw rfl)))
    · exact addSectionScores_ok (addClaudeScores_ok hbase (hcache entry rfl))

/-- C2 (witness): the amended theorem applied at a concrete input — the empty
page, the empty configuration, no credential. -/
theorem C2_clamping_amended_witness :
    Config.Nonneg {} ∧
      CategoriesOk (Scorer.scoreAll emptyContent
        (Parser.computeMetrics emptyContent) {} none none
        (Except.error ("boom")) "now").categories := by
  have hcfg : Config.Nonneg {} := by
    refine ⟨?_, ?_, ?_, ?_, ?_, ?_, ?_, ?_, ?_⟩ <;>
      exact ⟨by intro w hw; simp at hw, by intro t ht; simp at ht,
        by intro r hr; simp at hr⟩
  refine ⟨hcfg, ?_⟩
  exact C2_clamping_amended emptyContent {} none none (Except.error ("boom"))
    "now" hcfg rfl (by intro e he; simp at he) (by intro raw h; simp at h)

/-- C1: the composite score is the weighted mean over exactly the categories
whose score is non-null and not marked estimated, renormalized by the sum of
the included weights, rounded to one decimal, 0 when no category qualifies
(`compositeSpec` spells the spec's wording); the fixed per-category weight
table carries content-structure 0.30, outcomes-reversibility 0.25,
terminology 0.15, permissions-plans 0.15, text-over-visuals 0.10,
self-contained 0.05, summing to 1; and on the example categories
`{A: 8 at weight 0.5, B: 6 at weight 0.5, C: estimated}` the composite is
exactly 7. -/
theorem C1_composite_renormalization :
    (∀ categories : Categories,
      Scorer.calculateCompositeScore categories = compositeSpec categories) ∧
    Scorer.CATEGORY_WEIGHTS.lookup ("content-structure") = some (30/100) ∧
    Scorer.CATEGORY_WEIGHTS.lookup ("outcomes-reversibility") = some (25/100) ∧
    Scorer.CATEGORY_WEIGHTS.lookup ("terminology") = some (15/100) ∧
    Scorer.CATEGORY_WEIGHTS.lookup ("permissions-plans") = some (15/100) ∧
    Scorer.CATEGORY_WEIGHTS.lookup ("text-over-visuals") = some (10/100) ∧
    Scorer.CATEGORY_WEIGHTS.lookup ("self-contained") = some (5/100) ∧
    (Scorer.CATEGORY_WEIGHTS.map (fun e => e.2)).sum = 1 ∧
    Scorer.calculateCompositeScore exampleCategories = .num 7 := by
  have h7 : round1 ((7 : ℚ)) = 7 := by
    rw [show ((7 : ℚ)) = (((7 : ℤ) : ℚ)) by norm_num, round1_intCast]
  refine ⟨calculateCompositeScore_eq_spec, rfl, rfl, rfl, rfl, rfl, rfl, ?_, ?_⟩
  · simp [Scorer.CATEGORY_WEIGHTS]
    norm_num
  · rw [calculateCompositeScore_eq_spec]
    unfold compositeSpec exampleCategories
    norm_num [Scorer.categoryWeight, jsOr, Scorer.CATEGORY_WEIGHTS, jsum,
      mulJ_num, addJ_num, divJ_num, round1J_num, addJ_zero, zero_addJ]
    exact h7

/-! ## Estimator category lookups -/

lemma addEstimatedScores_lookup_or (cats : Categories) (content : Content)
    (metrics : Metrics) :
    ∃ c, (Scorer.addEstimatedScores cats content metrics).lookup
        ("outcomes-reversibility") = some c ∧
      c.estimated = true ∧ c.score.isSome = true ∧
      (c.criteria.lookup ("EST-OR")).isSome = true ∧
      c.message = some ("Estimated using heuristic checks (no Claude)") := by
  unfold Scorer.addEstimatedScores
  rw [lookup_setAssoc_ne _ (by decide), lookup_setAssoc_ne _ (by decide),
    lookup_setAssoc_self]
  exact ⟨_, rfl, rfl, rfl, rfl, rfl⟩

lemma addEstimatedScores_lookup_pp (cats : Categories) (content : Content)
    (metrics : Metrics) :
    ∃ c, (Scorer.addEstimatedScores cats content metrics).lookup
        ("permissions-plans") = some c ∧
      c.estimated = true ∧ c.score.isSome = true ∧
      (c.criteria.lookup ("EST-PP")).isSome = true := by
  unfold Scorer.addEstimatedScores
  rw [lookup_setAssoc_ne _ (by decide), lookup_setAssoc_self]
  exact ⟨_, rfl, rfl, rfl, rfl⟩

lemma addEstimatedScores_lookup_sc (cats : Categories) (content : Content)
    (metrics : Metrics) :
    ∃ c, (Scorer.addEstimatedScores cats content metrics).lookup
        ("self-contained") = some c ∧
      c.estimated = true ∧ c.score.isSome = true ∧
      (c.criteria.lookup ("EST-SC")).isSome = true := by
  unfold Scorer.addEstimatedScores
  rw [lookup_setAssoc_self]
  exact ⟨_, rfl, rfl, rfl, rfl⟩

/-- The composite score never reads estimated categories: filtering them out
first changes nothing. -/
lemma composite_ignores_estimated (cats : Categories) :
    Scorer.calculateCompositeScore cats =
      Scorer.calculateCompositeScore (cats.filter (fun e => !e.2.estimated)) := by
  rw [calculateCompositeScore_eq_spec, calculateCompositeScore_eq_spec]
  unfold compositeSpec
  rw [List.filter_filter]
  have hfn : (fun (e : String × CategoryResult) =>
      (e.2.score.isSome && !e.2.estimated) && !e.2.estimated) =
      (fun e => e.2.score.isSome && !e.2.estimated) := by
    funext e
    cases he : e.2.estimated <;> simp [he]
  rw [hfn]

/-- C3: when the semantic (Claude) call throws, the error does not escape
`scoreAll`: the run returns a report in which outcomes-reversibility,
permissions-plans and self-contained carry `estimated = true` with heuristic
Estimator scores (numeric, under the `EST-*` criteria), `meta.claudeError`
records the error message, and the composite score is computed only from the
non-estimated categories. -/
theorem C3_claude_fallback (content : Content) (metrics : Metrics) (cfg : Config)
    (key msg now : String) (report : ScoreReport)
    (hrep : report = Scorer.scoreAll content metrics cfg (some key) none
      (Except.error msg) now) :
    (∃ c, report.categories.lookup ("outcomes-reversibility") = some c ∧
      c.estimated = true ∧ c.score.isSome = true ∧
      (c.criteria.lookup ("EST-OR")).isSome = true ∧
      c.message = some ("Estimated using heuristic checks (no Claude)")) ∧
    (∃ c, report.categories.lookup ("permissions-plans") = some c ∧
      c.estimated = true ∧ c.score.isSome = true ∧
      (c.criteria.lookup ("EST-PP")).isSome = true) ∧
    (∃ c, report.categories.lookup ("self-contained") = some c ∧
      c.estimated = true ∧ c.score.isSome = true ∧
      (c.criteria.lookup ("EST-SC")).isSome = true) ∧
    report.meta.claudeError = some msg ∧
    report.compositeScore = Scorer.calculateCompositeScore
      (report.categories.filter (fun e => !e.2.estimated)) := by
  subst hrep
  refine ⟨?_, ?_, ?_, rfl, ?_⟩
  · rw [scoreAll_cats_errPath, addSectionScores_lookup_ne (by decide)]
    exact addEstimatedScores_lookup_or _ _ _
  · rw [scoreAll_cats_errPath, addSectionScores_lookup_ne (by decide)]
    exact addEstimatedScores_lookup_pp _ _ _
  · rw [scoreAll_cats_errPath, addSectionScores_lookup_ne (by decide)]
    exact addEstimatedScores_lookup_sc _ _ _
  · exact composite_ignores_estimated _

/-- C3 (witness): the fallback theorem applied at a concrete run. -/
theorem C3_claude_fallback_witness :
    (∃ c, (Scorer.scoreAll emptyContent (Parser.computeMetrics emptyContent) {}
        (some ("k")) none (Except.error ("boom")) "now").categories.lookup
        ("outcomes-reversibility") = some c ∧
      c.estimated = true ∧ c.score.isSome = true ∧
      (c.criteria.lookup ("EST-OR")).isSome = true ∧
      c.message = some ("Estimated using heuristic checks (no Claude)")) ∧
    (Scorer.scoreAll emptyContent (Parser.computeMetrics emptyContent) {}
        (some ("k")) none (Except.error ("boom")) "now").meta.claudeError =
      some ("boom") := by
  have h := C3_claude_fallback emptyContent (Parser.computeMetrics emptyContent)
    {} "k" "boom" "now" _ rfl
  exact ⟨h.1, h.2.2.2.1⟩

/-! ## Stable-sort lemmas for the severity ordering -/

lemma insByRank_perm {α : Type} (rank : α → ℕ) (x : α) (l : List α) :
    List.Perm (insByRank rank x l) (x :: l) := by
  induction l with
  | nil => rfl
  | cons y ys ih =>
    rw [insByRank]
    split
    · rfl
    · exact List.Perm.trans (List.Perm.cons y ih) (List.Perm.swap x y ys)

lemma sortByRank_perm {α : Type} (rank : α → ℕ) (l : List α) :
    List.Perm (sortByRank rank l) l := by
  induction l with
  | nil => rfl
  | cons x xs ih =>
    rw [sortByRank]
    exact List.Perm.trans (insByRank_perm rank x _) (List.Perm.cons x ih)

lemma insByRank_pairwise {α : Type} {rank : α → ℕ} {x : α} {l : List α}
    (h : l.Pairwise (fun a b => rank a ≤ rank b)) :
    (insByRank rank x l).Pairwise (fun a b => rank a ≤ rank b) := by
  induction l with
  | nil => simp [insByRank]
  | cons y ys ih =>
    rw [insByRank]
    split
    · rename_i hxy
      refine List.Pairwise.cons ?_ h
      intro b hb
      rcases List.mem_cons.mp hb with rfl | hb
      · exact hxy
      · exact le_trans hxy (List.rel_of_pairwise_cons h hb)
    · rename_i hxy
      push_neg at hxy
      refine List.Pairwise.cons ?_ (ih (List.Pairwise.of_cons h))
      intro b hb
      have hmem := (insByRank_perm rank x ys).mem_iff.mp hb
      rcases List.mem_cons.mp hmem with rfl | hb'
      · exact le_of_lt hxy
      · exact List.rel_of_pairwise_cons h hb'

lemma sortByRank_pairwise {α : Type} (rank : α → ℕ) (l : List α) :
    (sortByRank rank l).Pairwise (fun a b => rank a ≤ rank b) := by
  induction l with
  | nil => simp [sortByRank]
  | cons x xs ih =>
    rw [sortByRank]
    exact insByRank_pairwise ih

lemma filter_insByRank {α : Type} (rank : α → ℕ) (k : ℕ) (x : α) (l : List α) :
    (insByRank rank x l).filter (fun a => rank a == k) =
      if rank x == k then x :: l.filter (fun a => rank a == k)
      else l.filter (fun a => rank a == k) := by
  induction l with
  | nil =>
    rw [insByRank]
    by_cases hxk : rank x = k <;> simp [List.filter_cons, hxk]
  | cons y ys ih =>
    rw [insByRank]
    split
    · rename_i hxy
      by_cases hxk : rank x = k <;> simp [List.filter_cons, hxk]
    · rename_i hxy
      push_neg at hxy
      rw [List.filter_cons, ih, List.filter_cons]
      by_cases hyk : rank y = k
      · have hxk : ¬ rank x = k := by
          intro hxk
          rw [hxk] at hxy
          exact absurd hyk (Nat.ne_of_lt hxy)
        simp [hyk, hxk]
      · by_cases hxk : rank x = k <;> simp [hyk, hxk]

lemma filter_sortByRank {α : Type} (rank : α → ℕ) (k : ℕ) (l : List α) :
    (sortByRank rank l).filter (fun a => rank a == k) =
      l.filter (fun a => rank a == k) := by
  induction l with
  | nil => rfl
  | cons x xs ih =>
    rw [sortByRank, filter_insByRank, List.filter_cons]
    by_cases hxk : rank x = k <;> simp [hxk, ih]

/-- C4: `allIssues` is the severity-sorted flattening of all categories'
issues annotated with their category — a permutation of the annotated
flattening, sorted so that no issue's severity rank precedes a smaller one
(critical 0 < warning 1 < info 2 < anything else 3), stably: the issues at
each severity rank appear in the exact category-traversal order; `topIssues`
is the first-5 prefix of `allIssues`, not re-ranked. -/
theorem C4_issue_ordering :
    (∀ categories : Categories,
      List.Perm (Scorer.collectAllIssues categories)
        (annotatedIssuesOf categories) ∧
      (Scorer.collectAllIssues categories).Pairwise
        (fun a b => annRank a ≤ annRank b) ∧
      (∀ k : ℕ, (Scorer.collectAllIssues categories).filter
          (fun a => annRank a == k) =
        (annotatedIssuesOf categories).filter (fun a => annRank a == k))) ∧
    (∀ (issues : List AnnIssue) (n : ℕ),
      Scorer.getTopIssues issues n = issues.take n) ∧
    (∀ (content : Content) (metrics : Metrics) (cfg : Config)
        (apiKey : Option String) (cache : Option CacheEntry)
        (claude : Except String ClaudeRaw) (now : String),
      (Scorer.scoreAll content metrics cfg apiKey cache claude now).allIssues =
        Scorer.collectAllIssues
          (Scorer.scoreAll content metrics cfg apiKey cache claude now).categories ∧
      (Scorer.scoreAll content metrics cfg apiKey cache claude now).topIssues =
        ((Scorer.scoreAll content metrics cfg apiKey cache claude
          now).allIssues).take 5) := by
  refine ⟨?_, fun issues n => rfl, fun content metrics cfg apiKey cache claude now =>
    ⟨rfl, rfl⟩⟩
  intro categories
  exact ⟨sortByRank_perm _ _, sortByRank_pairwise _ _,
    fun k => filter_sortByRank _ k _⟩

/-- C5: for every metrics input with at least one paragraph, the CS-01
score is round(10 × fraction of paragraphs at or under the threshold)
minus the long-sentence penalty (1 when more than 20% of sentences are
long), clamped to [0,10]; the over-threshold paragraphs are flagged first,
with severity critical exactly when the word count exceeds 200 and warning
otherwise; the parser counts a paragraph long at the fixed 150-word cutoff;
and the scenario page (one 210-word paragraph, nine 20-word ones) yields
exactly one issue, of severity critical, with longCount 1. -/
theorem C5_paragraph_brevity :
    (∀ (m : Metrics) (cfg : Config), m.paragraphs.count ≠ 0 →
      (ContentStructureRules.scoreParagraphBrevity m cfg).score =
        JSNum.num (max 0 (min 10 (jround
          (((m.paragraphs.count : ℚ) - (m.paragraphs.longCount : ℚ)) /
            (m.paragraphs.count : ℚ) * 10) - longSentencePenalty m))) ∧
      ((ContentStructureRules.scoreParagraphBrevity m cfg).issues.map
          (fun i => i.severity)).take m.paragraphs.longParagraphs.length =
        m.paragraphs.longParagraphs.map
          (fun p => if 200 < p.wordCount then "critical" else "warning")) ∧
    (∀ content : Content,
      (Parser.computeMetrics content).paragraphs.longCount =
        (content.structure'.paragraphs.filter
          (fun p => 150 < p.wordCount)).length) ∧
    (∀ cfg : Config,
      ((ContentStructureRules.scoreParagraphBrevity
          (Parser.computeMetrics brevityContent) cfg).issues.map
        (fun i => i.severity)) = ["critical"] ∧
      (Parser.computeMetrics brevityContent).paragraphs.longCount = 1) := by
  refine ⟨?_, fun content => rfl, fun cfg => ⟨rfl, rfl⟩⟩
  intro m cfg h
  constructor
  · rcases hs : m.paragraphs.sentences with _ | s
    · simp [ContentStructureRules.scoreParagraphBrevity, longSentencePenalty, h, hs]
    · by_cases ht : 0 < s.total
      · by_cases hr : (1/5 : ℚ) < (s.longCount : ℚ) / (s.total : ℚ)
        · simp [ContentStructureRules.scoreParagraphBrevity, longSentencePenalty,
            h, hs, ht, hr]
        · simp [ContentStructureRules.scoreParagraphBrevity, longSentencePenalty,
            h, hs, ht, hr]
      · simp [ContentStructureRules.scoreParagraphBrevity, longSentencePenalty,
          h, hs, ht]
  · simp only [ContentStructureRules.scoreParagraphBrevity, if_neg h,
      List.map_append, List.map_map]
    rw [List.take_left']
    · rfl
    · simp

/-- C5 witness: the general clause applied to the scenario metrics with the
empty configuration. -/
theorem C5_paragraph_brevity_witness :
    (ContentStructureRules.scoreParagraphBrevity
        (Parser.computeMetrics brevityContent) {}).score =
      JSNum.num (max 0 (min 10 (jround
        ((((Parser.computeMetrics brevityContent).paragraphs.count : ℚ) -
          ((Parser.computeMetrics brevityContent).paragraphs.longCount : ℚ)) /
          ((Parser.computeMetrics brevityContent).paragraphs.count : ℚ) * 10) -
        longSentencePenalty (Parser.computeMetrics brevityContent)))) :=
  (C5_paragraph_brevity.1 (Parser.computeMetrics brevityContent) {}
    (by decide)).1

lemma skipPosAux_cons (prev c : ℕ) (rest : List ℕ) :
    skipPosAux prev (c :: rest) =
      (if prev + 1 < c then [0] else []) ++
        (skipPosAux c rest).map (fun i => i + 1) := by
  have hpq : ((fun i => decide ((if i = 0 then prev
        else (c :: rest).getD (i - 1) 0) + 1 <
        (c :: rest).getD i 0)) ∘ Nat.succ) =
      (fun j => decide ((if j = 0 then c else rest.getD (j - 1) 0) + 1 <
        rest.getD j 0)) :=
    funext fun j => by cases j <;> rfl
  unfold skipPosAux
  rw [List.length_cons, List.range_succ_eq_map, List.filter_cons]
  by_cases hc : prev + 1 < c
  · rw [if_pos (by simpa using hc), if_pos hc]
    rw [List.filter_map, hpq]
    rfl
  · rw [if_neg (by simpa using hc), if_neg hc]
    rw [List.filter_map, hpq]
    rfl

lemma skipPositions_cons (c : ℕ) (rest : List ℕ) :
    skipPositions (c :: rest) = (skipPosAux c rest).map (fun i => i + 1) := by
  have hpq : ((fun i => decide (1 ≤ i ∧
        (c :: rest).getD (i - 1) 0 + 1 <
        (c :: rest).getD i 0)) ∘ Nat.succ) =
      (fun j => decide ((if j = 0 then c else rest.getD (j - 1) 0) + 1 <
        rest.getD j 0)) := by
    funext j
    cases j with
    | zero =>
      rw [Function.comp_apply, decide_eq_decide, and_iff_right (le_refl 1)]
      exact Iff.rfl
    | succ n =>
      rw [Function.comp_apply, decide_eq_decide,
        and_iff_right (Nat.succ_le_succ (Nat.zero_le _))]
      exact Iff.rfl
  unfold skipPositions skipPosAux
  rw [List.length_cons, List.range_succ_eq_map, List.filter_cons]
  rw [if_neg (by simp)]
  rw [List.filter_map, hpq]

lemma skipFrom_eq (levels : List ℕ) : ∀ (prev idx : ℕ), 1 ≤ prev →
    (∀ l ∈ levels, 1 ≤ l) →
    skipPositionsFrom prev idx levels =
      (skipPosAux prev levels).map (fun i => i + idx) := by
  induction levels with
  | nil => intro prev idx _ _; rfl
  | cons c rest ih =>
    intro prev idx hprev hall
    have hprev' : prev ≠ 0 := Nat.one_le_iff_ne_zero.mp hprev
    have h1c : (1 : ℕ) ≤ c := hall c (List.mem_cons_self c rest)
    rw [skipPositionsFrom, skipPosAux_cons, List.map_append, List.map_map,
      ih c (idx + 1) h1c (fun l hl => hall l (List.mem_cons_of_mem c hl))]
    by_cases hc : prev + 1 < c
    · rw [if_pos ⟨hc, hprev'⟩, if_pos hc]
      refine congrArg₂ _ (by simp) ?_
      exact List.map_congr_left (fun a _ => by simp [Function.comp]; omega)
    · rw [if_neg (fun hand => hc hand.1), if_neg hc]
      refine congrArg₂ _ rfl ?_
      exact List.map_congr_left (fun a _ => by simp [Function.comp]; omega)

lemma hierGo_map_index (levels : List ℕ) : ∀ (prev idx : ℕ),
    (Parser.hierGo prev idx levels).map (fun i => i.index) =
      skipPositionsFrom prev idx levels := by
  induction levels with
  | nil => intro prev idx; rfl
  | cons c rest ih =>
    intro prev idx
    rw [Parser.hierGo, skipPositionsFrom, List.map_append, ih]
    by_cases h : prev + 1 < c ∧ prev ≠ 0
    · rw [if_pos h, if_pos h]; rfl
    · rw [if_neg h, if_neg h]; rfl

lemma validate_map_index (levels : List ℕ) (hall : ∀ l ∈ levels, 1 ≤ l) :
    (Parser.validateHeadingHierarchy levels).issues.map (fun i => i.index) =
      skipPositions levels := by
  cases levels with
  | nil => rfl
  | cons c rest =>
    have h1c : (1 : ℕ) ≤ c := hall c (List.mem_cons_self c rest)
    have : (Parser.validateHeadingHierarchy (c :: rest)).issues =
        Parser.hierGo 0 0 (c :: rest) := rfl
    rw [this, hierGo_map_index, skipPositionsFrom, if_neg (by simp),
      skipFrom_eq rest c 1 h1c (fun l hl => hall l (List.mem_cons_of_mem c hl)),
      skipPositions_cons]
    rfl

/-- C6: for every list of heading levels (all at least 1, as parsed from
h1-h6 tags), the hierarchy validation flags exactly the positions whose
level jumps forward by more than one past the immediately preceding
heading — so level decreases are never flagged — and the result is valid
iff no such skip exists; heading levels [1,2,4] yield valid = false with
exactly one issue citing the skip from h2 to h4 at index 2. -/
theorem C6_heading_hierarchy :
    (∀ levels : List ℕ, (∀ l ∈ levels, 1 ≤ l) →
      (Parser.validateHeadingHierarchy levels).issues.map (fun i => i.index) =
        skipPositions levels ∧
      ((Parser.validateHeadingHierarchy levels).valid = true ↔
        skipPositions levels = [])) ∧
    ((Parser.validateHeadingHierarchy [1, 2, 4]).valid = false ∧
      (Parser.validateHeadingHierarchy [1, 2, 4]).issues =
        [{ type := "skipped"
           message := "Heading level skipped from h2 to h4"
           index := 2 }]) := by
  refine ⟨?_, by decide, by decide⟩
  intro levels hall
  have hmap := validate_map_index levels hall
  refine ⟨hmap, ?_⟩
  have hlen : (Parser.validateHeadingHierarchy levels).issues.length =
      (skipPositions levels).length := by
    rw [← hmap, List.length_map]
  have hvalid : (Parser.validateHeadingHierarchy levels).valid =
      decide ((Parser.validateHeadingHierarchy levels).issues.length = 0) := rfl
  rw [hvalid, decide_eq_true_iff, hlen, List.length_eq_zero]

/-- C6 witness: the general clause applied to the scenario levels. -/
theorem C6_heading_hierarchy_witness :
    (Parser.validateHeadingHierarchy [1, 2, 4]).issues.map (fun i => i.index) =
      skipPositions [1, 2, 4] :=
  (C6_heading_hierarchy.1 [1, 2, 4] (by decide)).1

/-- C7: AV-02 checks the fixed high-risk pair list, flags one issue per
pair whose both terms occur in the text (word-boundary matching over the
token stream), and scores max(0, 10 − 2 × flagged pairs); the scenario text
("deactivate" 3×, "disable" 2×) yields one issue referencing both terms and
a score of 8. -/
theorem C7_confusable_terms :
    (∀ content : Content,
      (TerminologyRules.detectConfusableTerms content).score =
        JSNum.num (max 0 (10 - 2 * (flaggedPairs content : ℚ))) ∧
      (TerminologyRules.detectConfusableTerms content).issues.length =
        flaggedPairs content) ∧
    ((TerminologyRules.detectConfusableTerms confusableContent).score =
        .num 8 ∧
      (TerminologyRules.detectConfusableTerms confusableContent).issues =
        [{ severity := "warning"
           message := "Potentially confusable terms in state changes: \"deactivate\" and \"disable\""
           details :=
             some ("\"deactivate\" used 3x, \"disable\" used 2x")
           fix := "Ensure \"deactivate\" and \"disable\" have clearly distinct meanings or standardize on one term" }]) := by
  constructor
  · intro content
    have hlen : (TerminologyRules.detectConfusableTerms content).issues.length =
        flaggedPairs content := by
      by_cases h1 : ("delete") ∈ content.text.fullText <;>
      by_cases h2 : ("remove") ∈ content.text.fullText <;>
      by_cases h3 : ("deactivate") ∈ content.text.fullText <;>
      by_cases h4 : ("disable") ∈ content.text.fullText <;>
      by_cases h5 : ("uninstall") ∈ content.text.fullText <;>
      simp [TerminologyRules.detectConfusableTerms, flaggedPairs,
        TerminologyRules.highRiskPairs, h1, h2, h3, h4, h5]
    refine ⟨?_, hlen⟩
    have hscore : (TerminologyRules.detectConfusableTerms content).score =
        .num (max 0 (10 -
          ((TerminologyRules.detectConfusableTerms content).issues.length : ℚ) *
            2)) := rfl
    rw [hscore, hlen, mul_comm]
  · constructor
    · have h1 : (TerminologyRules.detectConfusableTerms confusableContent).score =
          .num (max 0 (10 - ((1 : ℕ) : ℚ) * 2)) := rfl
      rw [h1]
      congr 1
      norm_num
    · rfl

/-- C8: determinism of the rule-based path — with no semantic capability
(apiKey absent) the categories and the composite are a pure function of
content, metrics and configuration: varying the cache, the remote response
and the clock across invocations leaves every CategoryResult (hence every
category and criterion score) identical. -/
theorem C8_determinism :
    ∀ (content : Content) (metrics : Metrics) (cfg : Config)
      (cache cache' : Option CacheEntry)
      (claude claude' : Except String ClaudeRaw) (now now' : String),
      (Scorer.scoreAll content metrics cfg none cache claude now).categories =
        (Scorer.scoreAll content metrics cfg none cache' claude'
          now').categories ∧
      (Scorer.scoreAll content metrics cfg none cache claude
          now).compositeScore =
        (Scorer.scoreAll content metrics cfg none cache' claude'
          now').compositeScore :=
  fun _ _ _ _ _ _ _ _ _ => ⟨rfl, rfl⟩

lemma addClaudeScores_lookup_sc (cats : Categories) (t : TransformedScores) :
    (Scorer.addClaudeScores cats t).lookup ("self-contained") =
      some
        { id := "CAT-09"
          name := "Self-Contained Context"
          score := some (Scorer.averageScores (Scorer.claudeCategory t.scores
            ["GAP-03", "GAP-04"]).1)
          weight := Scorer.CATEGORY_WEIGHTS.lookup ("self-contained")
          criteria := (Scorer.claudeCategory t.scores
            ["GAP-03", "GAP-04"]).1
          issues := (Scorer.claudeCategory t.scores
            ["GAP-03", "GAP-04"]).2 } := by
  unfold Scorer.addClaudeScores
  rw [lookup_updateCat_ne _ (by decide)]
  split <;> (try rw [lookup_updateCat_ne _ (by decide)]) <;>
    split <;> (try rw [lookup_updateCat_ne _ (by decide)]) <;>
    split <;> (try rw [lookup_updateCat_ne _ (by decide)]) <;>
    rw [lookup_setAssoc_ne _ (by decide), lookup_setAssoc_self]

lemma addClaudeScores_lookup_pp (cats : Categories) (t : TransformedScores) :
    (Scorer.addClaudeScores cats t).lookup ("permissions-plans") =
      some
        { id := "CAT-04"
          name := "Permissions & Plans"
          score := some (Scorer.averageScores (Scorer.claudeCategory t.scores
            ["PP-01", "PP-02", "PP-03", "PP-04"]).1)
          weight := Scorer.CATEGORY_WEIGHTS.lookup ("permissions-plans")
          criteria := (Scorer.claudeCategory t.scores
            ["PP-01", "PP-02", "PP-03", "PP-04"]).1
          issues := (Scorer.claudeCategory t.scores
            ["PP-01", "PP-02", "PP-03", "PP-04"]).2 } := by
  unfold Scorer.addClaudeScores
  rw [lookup_updateCat_ne _ (by decide)]
  split <;> (try rw [lookup_updateCat_ne _ (by decide)]) <;>
    split <;> (try rw [lookup_updateCat_ne _ (by decide)]) <;>
    split <;> (try rw [lookup_updateCat_ne _ (by decide)]) <;>
    rw [lookup_setAssoc_self]

lemma claudeCategory_foldl_acc (scores : List (String × CriterionResult)) :
    ∀ (ids : List String) (acc : List (String × CriterionResult) × List Issue),
      (∀ id ∈ ids, scores.lookup id = none) →
      ids.foldl (fun acc id =>
        match scores.lookup id with
        | some c => (acc.1 ++ [(id, c)], acc.2 ++ c.issues)
        | none => acc) acc = acc := by
  intro ids
  induction ids with
  | nil => intro acc _; rfl
  | cons id rest ih =>
    intro acc h
    rw [List.foldl_cons]
    have h0 := h id (List.mem_cons_self id rest)
    simp only [h0]
    exact ih acc (fun i hi => h i (List.mem_cons_of_mem id hi))

lemma claudeCategory_none (scores : List (String × CriterionResult))
    (ids : List String) (h : ∀ id ∈ ids, scores.lookup id = none) :
    Scorer.claudeCategory scores ids = ([], []) := by
  unfold Scorer.claudeCategory
  exact claudeCategory_foldl_acc scores ids ([], []) h

/-- C9: on the semantic path each Claude-scored category always carries a
numeric (non-null) score and no estimated flag; over an empty criteria map
averageScores returns 0; when the transformed response contains none of a
category's criterion IDs the category is created with score 0, empty
criteria and no estimated flag, so it qualifies for composite weighting at
its full table weight (1/4 for outcomes-reversibility). -/
theorem C9_claude_score_never_null :
    (∀ (cats : Categories) (t : TransformedScores),
      ∀ key ∈ (["outcomes-reversibility", "self-contained",
          "permissions-plans"] : List String),
        ∃ cat : CategoryResult,
          (Scorer.addClaudeScores cats t).lookup key = some cat ∧
          cat.score.isSome = true ∧ cat.estimated = false) ∧
    Scorer.averageScores [] = JSNum.num 0 ∧
    (∀ (scores : List (String × CriterionResult)) (ids : List String),
      (∀ id ∈ ids, scores.lookup id = none) →
      Scorer.claudeCategory scores ids = ([], [])) ∧
    (∀ (cats : Categories) (t : TransformedScores),
      (∀ id ∈ (["OR-01", "OR-02", "OR-03", "OR-04"] : List String),
        t.scores.lookup id = none) →
      ∃ cat : CategoryResult,
        (Scorer.addClaudeScores cats t).lookup ("outcomes-reversibility") =
          some cat ∧
        cat.score = some (JSNum.num 0) ∧ cat.estimated = false ∧
        cat.criteria = [] ∧
        Scorer.categoryWeight ("outcomes-reversibility") cat = 1/4) := by
  refine ⟨?_, rfl, claudeCategory_none, ?_⟩
  · intro cats t key hkey
    simp only [List.mem_cons, List.not_mem_nil, or_false] at hkey
    rcases hkey with h | h | h
    · exact h ▸ ⟨_, addClaudeScores_lookup_or cats t, rfl, rfl⟩
    · exact h ▸ ⟨_, addClaudeScores_lookup_sc cats t, rfl, rfl⟩
    · exact h ▸ ⟨_, addClaudeScores_lookup_pp cats t, rfl, rfl⟩
  · intro cats t h
    refine ⟨_, addClaudeScores_lookup_or cats t, ?_, rfl, ?_, ?_⟩
    · rw [claudeCategory_none t.scores _ h]
      rfl
    · rw [claudeCategory_none t.scores _ h]
    · have hlk : Scorer.CATEGORY_WEIGHTS.lookup ("outcomes-reversibility") =
        some (25/100) := rfl
      simp only [Scorer.categoryWeight, hlk, jsOr]
      norm_num

/-- C9 witness: the empty-response clause at the empty transformed response
and the empty category map. -/
theorem C9_claude_score_never_null_witness :
    ∃ cat : CategoryResult,
      (Scorer.addClaudeScores []
          { scores := [], summary := "", topIssues := [] }).lookup
          ("outcomes-reversibility") = some cat ∧
      cat.score = some (JSNum.num 0) ∧ cat.estimated = false ∧
      cat.criteria = [] ∧
      Scorer.categoryWeight ("outcomes-reversibility") cat = 1/4 :=
  C9_claude_score_never_null.2.2.2 []
    { scores := [], summary := "", topIssues := [] }
    (fun id _ => rfl)

/-- C10: the CS-01 score, issue count and issue severities are invariant
under any configuration change (in particular a changed CS-01 threshold
override): the long-paragraph count the scorer consumes is fixed upstream
in the parsed metrics, and the configured threshold reaches only the issue
message text. -/
theorem C10_threshold_invariance :
    ∀ (m : Metrics) (cfg cfg' : Config),
      (ContentStructureRules.scoreParagraphBrevity m cfg).score =
        (ContentStructureRules.scoreParagraphBrevity m cfg').score ∧
      (ContentStructureRules.scoreParagraphBrevity m cfg).issues.length =
        (ContentStructureRules.scoreParagraphBrevity m cfg').issues.length ∧
      (ContentStructureRules.scoreParagraphBrevity m cfg).issues.map
          (fun i => i.severity) =
        (ContentStructureRules.scoreParagraphBrevity m cfg').issues.map
          (fun i => i.severity) := by
  intro m cfg cfg'
  by_cases h : m.paragraphs.count = 0
  · refine ⟨?_, ?_, ?_⟩ <;>
      simp [ContentStructureRules.scoreParagraphBrevity, h]
  · refine ⟨?_, ?_, ?_⟩ <;>
      simp [ContentStructureRules.scoreParagraphBrevity, h, List.map_append,
        List.map_map]

end Claims

end DocScore
